import Mathlib

/-!
Verification of the signal-generation decision engine of the xausd
repository (multi-timeframe gold-trading signal bot).

The Python source is shallowly embedded: prices and float arithmetic are
modelled over `ℚ`, Python `round(x, n)` as round-half-to-even on the
`10^-n` grid, fallible operations (`ZeroDivisionError`, `IndexError`,
pandas `ValueError` on truth-testing a Series, `TypeError` on `in`
applied to an enum member) as `Except String`.  Every definition follows
the corresponding Python function statement by statement; dictionaries
become structures, pandas column slices become `List` operations.
Configuration values from `src/config/settings.py` appear as constants;
the liquidity tolerance is threaded as an explicit parameter where the
specification treats it as configuration.
-/

namespace XAUUSD

/-! ## Python arithmetic primitives -/

/-- Executable floor of a rational (the denominator is positive, so the
Euclidean quotient is the floor). -/
def rfloor (q : ℚ) : ℤ := q.num / q.den

/-- Round-half-to-even of a rational to an integer, the tie-breaking rule
of Python `round`. -/
def roundHalfEven (q : ℚ) : ℤ :=
  if q - (rfloor q : ℚ) < 1/2 then rfloor q
  else if 1/2 < q - (rfloor q : ℚ) then rfloor q + 1
  else if Even (rfloor q) then rfloor q else rfloor q + 1

/-- Python `round(q, d)`: round half to even on the `10^-d` grid. -/
def pyRoundDec (d : ℕ) (q : ℚ) : ℚ :=
  (roundHalfEven (q * (10 ^ d : ℕ)) : ℚ) / (10 ^ d : ℕ)

/-- Python true division: raises `ZeroDivisionError` on a zero divisor. -/
def pyDiv (a b : ℚ) : Except String ℚ :=
  if b = 0 then .error "ZeroDivisionError: division by zero" else .ok (a / b)

/-- Python list slice `l[-n:]` (the last `min n (length l)` elements). -/
def takeLast {α : Type} (n : ℕ) (l : List α) : List α :=
  l.drop (l.length - n)

/-- Maximum of a list of rationals (used on non-empty lists only,
mirroring pandas `Series.max()`). -/
def maxList (l : List ℚ) : ℚ :=
  match l with
  | [] => 0
  | x :: xs => xs.foldl max x

/-- Minimum of a list of rationals (used on non-empty lists only). -/
def minList (l : List ℚ) : ℚ :=
  match l with
  | [] => 0
  | x :: xs => xs.foldl min x

/-- Maximum over a possibly empty slice: pandas yields `NaN` for the max
of an empty Series and every comparison with `NaN` is `False`, so `none`
stands for that `NaN`. -/
def maxSlice (l : List ℚ) : Option ℚ :=
  match l with
  | [] => none
  | x :: xs => some (xs.foldl max x)

def minSlice (l : List ℚ) : Option ℚ :=
  match l with
  | [] => none
  | x :: xs => some (xs.foldl min x)

/-- `bool(series)` on a pandas boolean Series: only a one-element Series
has a truth value; any other length raises `ValueError`. -/
def pyBoolSeries (l : List Bool) : Except String Bool :=
  match l with
  | [b] => .ok b
  | _ => .error "ValueError: The truth value of a Series is ambiguous. Use a.empty, a.bool(), a.item(), a.any() or a.all()."

/-- Python `any(a and b)` where `a` and `b` are pandas boolean Series:
`a and b` first truth-tests `a` (raising for length not equal to one) and
yields `a` itself when it is falsy, else `b`; `any` then scans the
resulting Series. -/
def pySeriesAndAny (a b : List Bool) : Except String Bool := do
  let ta ← pyBoolSeries a
  if ta then pure (b.any id) else pure (a.any id)

/-- Substring test on character lists (Python `needle in haystack`). -/
def containsSub (needle : List Char) : List Char → Bool
  | [] => needle.isEmpty
  | c :: rest => needle.isPrefixOf (c :: rest) || containsSub needle rest

/-- Python `needle in haystack` for strings. -/
def strContains (needle hay : String) : Bool :=
  containsSub needle.toList hay.toList

/-- Insertion step of an ascending insertion sort on rationals. -/
def insertAsc (x : ℚ) : List ℚ → List ℚ
  | [] => [x]
  | y :: ys => if x ≤ y then x :: y :: ys else y :: insertAsc x ys

/-- Python `sorted` on a list of rationals (any sorted permutation of a
list over a linear order is unique, so insertion sort is extensionally
the library sort). -/
def sortAsc (l : List ℚ) : List ℚ := l.foldr insertAsc []

/-! ## Configuration constants (`src/config/settings.py`) -/

def PIP_VALUE : ℚ := 1/100
def ORDER_BLOCK_LOOKBACK : ℕ := 50
def FVG_MIN_SIZE_PIPS : ℚ := 50
def LIQUIDITY_SWEEP_PIPS : ℚ := 100
def RISK_PERCENTAGE : ℚ := 2
/-- `RiskCalculator.__init__`: `getattr(settings, "ACCOUNT_BALANCE", 10000.0)`;
the settings class defines no `ACCOUNT_BALANCE`, so the default applies. -/
def ACCOUNT_BALANCE : ℚ := 10000

/-! ## Enumerations (`src/config/constants.py`) -/

inductive SignalType
  | BUY
  | SELL
  | NEUTRAL
deriving DecidableEq, Inhabited

inductive TrendDirection
  | BULLISH
  | BEARISH
  | RANGING
deriving DecidableEq, Inhabited

inductive OrderBlockType
  | BULLISH_OB
  | BEARISH_OB
  | BREAKER_BULLISH
  | BREAKER_BEARISH
deriving DecidableEq, Inhabited

/-! ## Confirmation system (`src/signal/confirmation_system.py`) -/

namespace ConfirmationSystem

/-- `ConfirmationSystem.CONFIRMATION_WEIGHTS` with Python
`dict.get(conf, 0.5)` built in. -/
def CONFIRMATION_WEIGHTS (s : String) : ℚ :=
  if s = "MULTI_TIMEFRAME_ALIGNMENT" then 3/2
  else if s = "TREND_ALIGNED" then 13/10
  else if s = "MOMENTUM_STRONG" then 1
  else if s = "ICT_BULLISH_ORDER_BLOCK" then 7/5
  else if s = "ICT_BEARISH_ORDER_BLOCK" then 7/5
  else if s = "ICT_BULLISH_FVG" then 6/5
  else if s = "ICT_BEARISH_FVG" then 6/5
  else if s = "ICT_KILL_ZONE_LONDON" then 13/10
  else if s = "ICT_KILL_ZONE_NEW_YORK" then 13/10
  else if s = "ICT_KILL_ZONE_ASIAN" then 4/5
  else if s = "STRONG_SUPPORT_LEVEL" then 6/5
  else if s = "STRONG_RESISTANCE_LEVEL" then 6/5
  else if s = "FIBONACCI_GOLDEN_RATIO" then 11/10
  else if s = "MARKET_STRUCTURE_BREAK" then 13/10
  else if s = "LIQUIDITY_SWEEP" then 6/5
  else if s = "VOLUME_CONFIRMATION" then 1
  else if s = "DIVERGENCE_DETECTED" then 11/10
  else if s = "CANDLESTICK_PATTERN" then 9/10
  else 1/2

def min_confirmations : ℕ := 3
def min_weighted_score : ℚ := 3

structure QualityChecks where
  has_ict_concept : Bool
  has_trend : Bool
  has_structure : Bool
  directional_alignment : Bool
  passed : Bool
deriving DecidableEq

/-- `ConfirmationSystem._perform_quality_checks`. -/
def _perform_quality_checks (confirmations : List String)
    (direction : SignalType) : QualityChecks :=
  let ict_keywords := ["ICT", "ORDER_BLOCK", "FVG", "KILL_ZONE", "LIQUIDITY"]
  let has_ict := confirmations.any fun conf =>
    ict_keywords.any fun keyword => strContains keyword conf
  let has_trend := confirmations.any fun conf =>
    strContains "TREND" conf || strContains "TIMEFRAME" conf
  let structure_keywords := ["SUPPORT", "RESISTANCE", "FIBONACCI", "STRUCTURE"]
  let has_structure := confirmations.any fun conf =>
    structure_keywords.any fun keyword => strContains keyword conf
  let bullish_confirms := confirmations.filter fun c =>
    strContains "BULLISH" c || strContains "SUPPORT" c
  let bearish_confirms := confirmations.filter fun c =>
    strContains "BEARISH" c || strContains "RESISTANCE" c
  let directional_alignment :=
    if direction = SignalType.BUY then
      decide (bearish_confirms.length < bullish_confirms.length)
    else
      decide (bullish_confirms.length < bearish_confirms.length)
  let passed_count :=
    (if has_ict then 1 else 0) + (if has_trend then 1 else 0) +
    (if has_structure then 1 else 0) + (if directional_alignment then 1 else 0)
  { has_ict_concept := has_ict
    has_trend := has_trend
    has_structure := has_structure
    directional_alignment := directional_alignment
    passed := decide (2 ≤ passed_count) }

/-- Result dictionary of `validate_confirmations`.  The early return for
an empty confirmation list omits the `weighted_score` and
`quality_checks` keys, hence the `Option` fields.  The human-readable
`reasons` strings are not modelled. -/
structure ValidationResult where
  is_valid : Bool
  count : ℕ
  weighted_score : Option ℚ
  confidence : ℚ
  quality_checks : Option QualityChecks
deriving DecidableEq

/-- Sum of looked-up weights over the (possibly repeating) labels. -/
def weightedScoreOf (confirmations : List String) : ℚ :=
  (confirmations.map CONFIRMATION_WEIGHTS).sum

/-- `ConfirmationSystem.validate_confirmations`.  `count` is
`len(set(confirmations))`, the number of distinct labels. -/
def validate_confirmations (confirmations : List String)
    (direction : SignalType) : ValidationResult :=
  if confirmations.isEmpty then
    { is_valid := false, count := 0, weighted_score := none
      confidence := 0, quality_checks := none }
  else
    let weighted_score := weightedScoreOf confirmations
    let unique_count := confirmations.dedup.length
    let confidence := min (weighted_score / 10) 1
    let quality_checks := _perform_quality_checks confirmations direction
    let is_valid :=
      decide (min_confirmations ≤ unique_count) &&
      decide (min_weighted_score ≤ weighted_score) &&
      quality_checks.passed
    { is_valid := is_valid, count := unique_count
      weighted_score := some weighted_score, confidence := confidence
      quality_checks := some quality_checks }

end ConfirmationSystem

/-! ## Risk calculator (`src/signal/risk_calculator.py`) -/

namespace RiskCalculator

/-- Result dictionary of `calculate_position_size` (the
`risk_reward_ratio` key, always `None` here, is not modelled). -/
structure PositionSizeResult where
  position_size : ℚ
  position_size_ounces : ℚ
  position_size_mini : ℚ
  position_size_micro : ℚ
  risk_amount : ℚ
  risk_percentage_actual : ℚ
  stop_distance_pips : ℚ
  stop_distance_dollars : ℚ
  pip_value : ℚ
  pip_value_mini : ℚ
  account_balance : ℚ
deriving DecidableEq

/-- `RiskCalculator.calculate_position_size` with the default account
balance.  A zero stop distance raises `ZeroDivisionError` in the source
(`risk_amount / (stop_distance_pips * 1.0)`). -/
def calculate_position_size (entry stop_loss : ℚ) (risk_percentage : ℚ) :
    Except String PositionSizeResult := do
  let risk_amount := ACCOUNT_BALANCE * (risk_percentage / 100)
  let stop_distance := |entry - stop_loss|
  let stop_distance_pips := stop_distance / PIP_VALUE
  let pip_value_per_standard_lot : ℚ := 1
  let lots0 ← pyDiv risk_amount (stop_distance_pips * pip_value_per_standard_lot)
  let lots1 := pyRoundDec 2 lots0
  let lots2 := if lots1 < 1/100 then 1/100 else lots1
  let max_lots := ACCOUNT_BALANCE / 5000
  let lots := if max_lots < lots2 then max_lots else lots2
  let actual_risk := lots * stop_distance_pips * pip_value_per_standard_lot
  let actual_risk_percentage := actual_risk / ACCOUNT_BALANCE * 100
  let ounces := lots * 100
  let mini_lots := ounces / 10
  let micro_lots := ounces
  pure
    { position_size := lots
      position_size_ounces := pyRoundDec 2 ounces
      position_size_mini := pyRoundDec 2 mini_lots
      position_size_micro := pyRoundDec 2 micro_lots
      risk_amount := pyRoundDec 2 actual_risk
      risk_percentage_actual := pyRoundDec 2 actual_risk_percentage
      stop_distance_pips := pyRoundDec 1 stop_distance_pips
      stop_distance_dollars := pyRoundDec 2 (stop_distance_pips * pip_value_per_standard_lot * lots)
      pip_value := pyRoundDec 2 (lots * pip_value_per_standard_lot)
      pip_value_mini := pyRoundDec 2 (mini_lots * (1/10))
      account_balance := ACCOUNT_BALANCE }

end RiskCalculator

/-! ## Bars and ICT structure detectors
(`src/analysis/technical/ict_analysis.py`) -/

/-- One OHLC bar; the DataFrame index becomes the list position.  Field
names `op/hi/lo/cl` stand for the `open/high/low/close` columns. -/
structure Bar where
  op : ℚ
  hi : ℚ
  lo : ℚ
  cl : ℚ
deriving DecidableEq, Inhabited

namespace ICTAnalysis

structure OrderBlock where
  type : OrderBlockType
  timestamp : ℕ
  hi : ℚ
  lo : ℚ
  op : ℚ
  cl : ℚ
  strength : ℚ
  tested : Bool
deriving DecidableEq, Inhabited

/-- `ICTAnalysis.identify_order_blocks`.  The trailing average range is
the mean of `high - low` over bars `i-20 .. i-1`; the strength division
`move_size / avg_range` can raise `ZeroDivisionError` when the trailing
window is completely flat. -/
def identify_order_blocks (df : List Bar) : Except String (List OrderBlock) :=
  if df.length < ORDER_BLOCK_LOOKBACK then .ok [] else do
    let step : List OrderBlock → ℕ → Except String (List OrderBlock) := fun obs i => do
      let current := df.getD i default
      let next := df.getD (i + 1) default
      let move_size := |next.cl - next.op|
      let window := (df.drop (i - 20)).take 20
      let avg_range := ((window.map fun b => b.hi - b.lo).sum) / 20
      if current.cl < current.op ∧ next.op < next.cl ∧ avg_range * (3/2) < move_size then do
        let strength ← pyDiv move_size avg_range
        pure (obs ++ [{ type := .BULLISH_OB, timestamp := i, hi := current.hi
                        lo := current.lo, op := current.op, cl := current.cl
                        strength := strength, tested := false }])
      else if current.op < current.cl ∧ next.cl < next.op ∧ avg_range * (3/2) < move_size then do
        let strength ← pyDiv move_size avg_range
        pure (obs ++ [{ type := .BEARISH_OB, timestamp := i, hi := current.hi
                        lo := current.lo, op := current.op, cl := current.cl
                        strength := strength, tested := false }])
      else
        pure obs
    let obs ← (List.range' ORDER_BLOCK_LOOKBACK (df.length - 1 - ORDER_BLOCK_LOOKBACK)).foldlM step []
    pure (takeLast 10 obs)

structure FairValueGap where
  type : String
  timestamp : ℕ
  gap_high : ℚ
  gap_low : ℚ
  gap_size : ℚ
  filled : Bool
deriving DecidableEq

/-- `ICTAnalysis.identify_fair_value_gaps`.  The middle candle of each
triple is read but unused in the source.  After the detection loop the
source unconditionally reads `self.df['close'].iloc[-1]`, which raises
`IndexError` on an empty frame. -/
def identify_fair_value_gaps (df : List Bar) : Except String (List FairValueGap) :=
  let min_gap_price := FVG_MIN_SIZE_PIPS * PIP_VALUE
  let fvgs := (List.range' 2 (df.length - 2)).foldl
    (fun acc i =>
      let candle1 := df.getD (i - 2) default
      let candle3 := df.getD i default
      if candle1.hi < candle3.lo then
        let gap_size := candle3.lo - candle1.hi
        if min_gap_price ≤ gap_size then
          acc ++ [{ type := "BULLISH_FVG", timestamp := i, gap_high := candle3.lo
                    gap_low := candle1.hi, gap_size := gap_size, filled := false }]
        else acc
      else if candle3.hi < candle1.lo then
        let gap_size := candle1.lo - candle3.hi
        if min_gap_price ≤ gap_size then
          acc ++ [{ type := "BEARISH_FVG", timestamp := i, gap_high := candle1.lo
                    gap_low := candle3.hi, gap_size := gap_size, filled := false }]
        else acc
      else acc)
    []
  match df.getLast? with
  | none => .error "IndexError: single positional indexer is out-of-bounds"
  | some lastBar =>
    let current_price := lastBar.cl
    let fvgs := fvgs.map fun fvg =>
      if fvg.gap_low ≤ current_price ∧ current_price ≤ fvg.gap_high then
        { fvg with filled := true }
      else fvg
    .ok (takeLast 10 (fvgs.filter fun fvg => !fvg.filled))

inductive LiquidityType
  | BUY_SIDE
  | SELL_SIDE
  | EQUAL_HIGHS
  | EQUAL_LOWS
deriving DecidableEq

structure LiquidityLevel where
  price : ℚ
  timestamp : ℕ
  type : LiquidityType
  swept : Bool
deriving DecidableEq

structure EqualLevel where
  price : ℚ
  count : ℕ
  strength : ℚ
deriving DecidableEq

/-- Greedy anchored clustering pass of `_find_equal_levels`: scan the
sorted prices, extending the current cluster while the price stays
within `tol` of the cluster anchor, and emit `(anchor, size)` pairs. -/
def clustersAux (tol : ℚ) : List ℚ → ℚ → ℕ → List (ℚ × ℕ)
  | [], anchor, cnt => [(anchor, cnt)]
  | q :: rest, anchor, cnt =>
    if |q - anchor| ≤ tol then clustersAux tol rest anchor (cnt + 1)
    else (anchor, cnt) :: clustersAux tol rest q 1

/-- `ICTAnalysis._find_equal_levels`.  The source reads the tolerance
from configuration (`LIQUIDITY_SWEEP_PIPS * PIP_VALUE`); it is threaded
here as the explicit parameter `tol`. -/
def _find_equal_levels (prices : List ℚ) (tol : ℚ) : List EqualLevel :=
  match sortAsc prices with
  | [] => []
  | p :: rest =>
    (clustersAux tol rest p 1).filterMap fun pc =>
      if 2 ≤ pc.2 then
        some { price := pc.1, count := pc.2, strength := (pc.2 : ℚ) / prices.length }
      else none

/-- Total number of prices assigned to reported equal-level clusters:
the membership count whose tolerance-monotonicity the specification
asserts. -/
def equalLevelsMemberCount (prices : List ℚ) (tol : ℚ) : ℕ :=
  ((_find_equal_levels prices tol).map (·.count)).sum

/-- Some adjacent pair of `anchor :: l` lies within `tol` of each other
(scanning left to right); used to characterise when the greedy
clustering reports at least one equal level. -/
def adjWithin (tol : ℚ) : ℚ → List ℚ → Bool
  | _, [] => false
  | anchor, q :: rest => if |q - anchor| ≤ tol then true else adjWithin tol q rest

structure LiquidityPools where
  buy_side : List LiquidityLevel
  sell_side : List LiquidityLevel
  equal_highs : List EqualLevel
  equal_lows : List EqualLevel
deriving DecidableEq

/-- `ICTAnalysis.identify_liquidity_pools`.  Swing points use the
symmetric eleven-bar window `i-5 .. i+5`; after the equal-level step the
source reads `iloc[-1]`, raising `IndexError` on an empty frame; the
last five pools of each side are then flagged `swept` against the
ten-bar extremes. -/
def identify_liquidity_pools (df : List Bar) : Except String LiquidityPools :=
  let swing_period : ℕ := 5
  let idxs := List.range' swing_period (df.length - 2 * swing_period)
  let buy_side : List LiquidityLevel := idxs.filterMap fun i =>
    let window := (df.drop (i - swing_period)).take (2 * swing_period + 1)
    let current := df.getD i default
    if current.hi = maxList (window.map (·.hi)) then
      some { price := current.hi, timestamp := i, type := .BUY_SIDE, swept := false }
    else none
  let sell_side : List LiquidityLevel := idxs.filterMap fun i =>
    let window := (df.drop (i - swing_period)).take (2 * swing_period + 1)
    let current := df.getD i default
    if current.lo = minList (window.map (·.lo)) then
      some { price := current.lo, timestamp := i, type := .SELL_SIDE, swept := false }
    else none
  let tolerance := LIQUIDITY_SWEEP_PIPS * PIP_VALUE
  let equal_highs := _find_equal_levels (buy_side.map (·.price)) tolerance
  let equal_lows := _find_equal_levels (sell_side.map (·.price)) tolerance
  match df.getLast? with
  | none => .error "IndexError: single positional indexer is out-of-bounds"
  | some _ =>
    let recent_high := maxList ((takeLast 10 df).map (·.hi))
    let recent_low := minList ((takeLast 10 df).map (·.lo))
    let kb := buy_side.length - 5
    let buy_side := buy_side.enum.map fun ji =>
      if kb ≤ ji.1 ∧ ji.2.price < recent_high then { ji.2 with swept := true } else ji.2
    let ks := sell_side.length - 5
    let sell_side := sell_side.enum.map fun ji =>
      if ks ≤ ji.1 ∧ recent_low < ji.2.price then { ji.2 with swept := true } else ji.2
    .ok { buy_side := buy_side, sell_side := sell_side
          equal_highs := equal_highs, equal_lows := equal_lows }

structure BosLevel where
  type : String
  level : ℚ
  broken_at : ℚ
deriving DecidableEq

structure ChochLevel where
  type : String
  level : ℚ
deriving DecidableEq

structure MarketStructure where
  current_structure : Option String
  bos_levels : List BosLevel
  choch_levels : List ChochLevel
  inducement_detected : Bool
deriving DecidableEq

/-- `ICTAnalysis.analyze_market_structure`: swing extraction, a single
higher-high BOS test and a lows-direction CHoCH test over the last three
swings, plus the twenty-bar inducement scan. -/
def analyze_market_structure (df : List Bar) : MarketStructure :=
  let idxs := List.range' 5 (df.length - 10)
  let swing_highs : List (ℚ × ℕ) := idxs.filterMap fun i =>
    let window := (df.drop (i - 5)).take 11
    let current := df.getD i default
    if current.hi = maxList (window.map (·.hi)) then some (current.hi, i) else none
  let swing_lows : List (ℚ × ℕ) := idxs.filterMap fun i =>
    let window := (df.drop (i - 5)).take 11
    let current := df.getD i default
    if current.lo = minList (window.map (·.lo)) then some (current.lo, i) else none
  let base : Option String × List BosLevel × List ChochLevel :=
    if 2 ≤ swing_highs.length ∧ 2 ≤ swing_lows.length then
      let recent_highs := takeLast 3 (swing_highs.map (·.1))
      let recent_lows := takeLast 3 (swing_lows.map (·.1))
      let hi2 := recent_highs.getD (recent_highs.length - 2) 0
      let hi1 := recent_highs.getD (recent_highs.length - 1) 0
      let bos := if 2 ≤ recent_highs.length ∧ hi2 < hi1 then
          [{ type := "BULLISH_BOS", level := hi2, broken_at := hi1 }]
        else []
      let lo2 := recent_lows.getD (recent_lows.length - 2) 0
      let lo1 := recent_lows.getD (recent_lows.length - 1) 0
      if 2 ≤ recent_lows.length then
        if lo2 < lo1 then (some "BULLISH", bos, [])
        else if lo1 < lo2 then
          (some "BEARISH", bos, [{ type := "BEARISH_CHOCH", level := lo2 }])
        else (none, bos, [])
      else (none, bos, [])
    else (none, [], [])
  let inducement :=
    if 20 ≤ df.length then
      let recent := takeLast 20 df
      (List.range (recent.length - 5)).any fun i =>
        let candle := recent.getD i default
        let last5close := (recent.getD (i + 5) default).cl
        let highBreak := match maxSlice ((recent.take i).map (·.hi)) with
          | some m => decide (m < candle.hi)
          | none => false
        let lowBreak := match minSlice ((recent.take i).map (·.lo)) with
          | some m => decide (candle.lo < m)
          | none => false
        (highBreak && decide (last5close < candle.op)) ||
        (lowBreak && decide (candle.op < last5close))
    else false
  { current_structure := base.1, bos_levels := base.2.1
    choch_levels := base.2.2, inducement_detected := inducement }

/-- One entry of `settings.ICT_KILL_ZONES`; `start`/`stop` are the
session bounds as minutes of the UTC day (the source compares
zero-padded `"HH:MM"` strings, which orders exactly like minutes). -/
structure KillZone where
  name : String
  start : ℕ
  stop : ℕ
  weight : ℚ
deriving DecidableEq

def ICT_KILL_ZONES : List KillZone :=
  [ { name := "ASIAN", start := 0, stop := 180, weight := 7/10 }
  , { name := "LONDON", start := 420, stop := 600, weight := 9/10 }
  , { name := "NEW_YORK", start := 810, stop := 960, weight := 1 }
  , { name := "LONDON_CLOSE", start := 900, stop := 1020, weight := 17/20 } ]

/-- `src/utils/helpers.py` `is_kill_zone`: first zone whose window
contains the current minute of day. -/
def is_kill_zone (now : ℕ) : Bool × Option String :=
  match ICT_KILL_ZONES.find? fun z => decide (z.start ≤ now ∧ now ≤ z.stop) with
  | some z => (true, some z.name)
  | none => (false, none)

/-- `src/utils/helpers.py` `get_kill_zone_weight`. -/
def get_kill_zone_weight (now : ℕ) : ℚ :=
  match ICT_KILL_ZONES.find? fun z => decide (z.start ≤ now ∧ now ≤ z.stop) with
  | some z => z.weight
  | none => 1/2

/-- Result of `analyze_kill_zone`; `current_time` is the wall-clock
minute of day that the source formats with `strftime` (injective per
minute), `all_zones` the constant configuration table. -/
structure KillZoneInfo where
  in_kill_zone : Bool
  zone_name : Option String
  zone_weight : ℚ
  current_time : ℕ
  all_zones : List KillZone
deriving DecidableEq

/-- `ICTAnalysis.analyze_kill_zone`: the only detector that reads the
wall clock (`datetime.now`); the clock is made an explicit argument
`now` (minute of the UTC day). -/
def analyze_kill_zone (now : ℕ) : KillZoneInfo :=
  let kz := is_kill_zone now
  { in_kill_zone := kz.1, zone_name := kz.2
    zone_weight := get_kill_zone_weight now
    current_time := now, all_zones := ICT_KILL_ZONES }

inductive OTEEntry
  | orderBlockEntry (direction : SignalType) (entry_zone_high entry_zone_low strength : ℚ)
  | fvgEntry (direction : SignalType) (entry_zone_high entry_zone_low gap_size : ℚ)
deriving DecidableEq

structure OptimalTradeEntry where
  zone : String
  price_position : ℚ
  entries : List OTEEntry
deriving DecidableEq

/-- `ICTAnalysis.find_optimal_trade_entry`.  The premium/discount
position divides by the fifty-bar range, raising `ZeroDivisionError` on
a flat window. -/
def find_optimal_trade_entry (order_blocks : List OrderBlock)
    (fair_value_gaps : List FairValueGap) (df : List Bar) :
    Except String (Option OptimalTradeEntry) :=
  if order_blocks.isEmpty ∧ fair_value_gaps.isEmpty then .ok none else
  match df.getLast? with
  | none => .error "IndexError: single positional indexer is out-of-bounds"
  | some lastBar => do
    let current_price := lastBar.cl
    let recent_high := maxList ((takeLast 50 df).map (·.hi))
    let recent_low := minList ((takeLast 50 df).map (·.lo))
    let range_size := recent_high - recent_low
    let price_position ← pyDiv (current_price - recent_low) range_size
    let zone := if price_position ≤ 1/2 then "DISCOUNT" else "PREMIUM"
    let entries : List OTEEntry :=
      if zone = "DISCOUNT" then
        (order_blocks.filterMap fun ob =>
          if ob.type = .BULLISH_OB ∧ ob.tested = false ∧
              current_price ≤ ob.hi ∧ ob.lo ≤ current_price then
            some (.orderBlockEntry .BUY ob.hi ob.lo ob.strength)
          else none) ++
        (fair_value_gaps.filterMap fun fvg =>
          if fvg.type = "BULLISH_FVG" ∧ fvg.filled = false ∧
              current_price ≤ fvg.gap_high then
            some (.fvgEntry .BUY fvg.gap_high fvg.gap_low fvg.gap_size)
          else none)
      else
        (order_blocks.filterMap fun ob =>
          if ob.type = .BEARISH_OB ∧ ob.tested = false ∧
              current_price ≤ ob.hi ∧ ob.lo ≤ current_price then
            some (.orderBlockEntry .SELL ob.hi ob.lo ob.strength)
          else none) ++
        (fair_value_gaps.filterMap fun fvg =>
          if fvg.type = "BEARISH_FVG" ∧ fvg.filled = false ∧
              fvg.gap_low ≤ current_price then
            some (.fvgEntry .SELL fvg.gap_high fvg.gap_low fvg.gap_size)
          else none)
    if entries.isEmpty then pure none
    else pure (some { zone := zone, price_position := price_position, entries := entries })

structure BreakerBlock where
  type : OrderBlockType
  original_type : OrderBlockType
  hi : ℚ
  lo : ℚ
  timestamp : ℕ
  confidence : String
deriving DecidableEq

/-- `ICTAnalysis.identify_breaker_blocks`.  The retest check
`any(recent_data['low'] <= ob['high'] and recent_data['close'] < ob['low'])`
truth-tests a ten-bar boolean Series with Python `and`, which raises
`ValueError` whenever the frame holds more than one bar
(`pySeriesAndAny`). -/
def identify_breaker_blocks (order_blocks : List OrderBlock) (df : List Bar) :
    Except String (List BreakerBlock) :=
  if order_blocks.isEmpty then .ok [] else
  match df.getLast? with
  | none => .error "IndexError: single positional indexer is out-of-bounds"
  | some lastBar => do
    let current_price := lastBar.cl
    order_blocks.foldlM
      (fun acc ob => do
        if ob.type = .BULLISH_OB then
          if current_price < ob.lo then
            let recent_data := takeLast 10 df
            let retest ← pySeriesAndAny
              (recent_data.map fun b => decide (b.lo ≤ ob.hi))
              (recent_data.map fun b => decide (b.cl < ob.lo))
            if retest then
              pure (acc ++ [{ type := .BREAKER_BEARISH, original_type := .BULLISH_OB
                              hi := ob.hi, lo := ob.lo, timestamp := ob.timestamp
                              confidence := if 2 < ob.strength then "HIGH" else "MEDIUM" }])
            else pure acc
          else pure acc
        else if ob.type = .BEARISH_OB then
          if ob.hi < current_price then
            let recent_data := takeLast 10 df
            let retest ← pySeriesAndAny
              (recent_data.map fun b => decide (ob.lo ≤ b.hi))
              (recent_data.map fun b => decide (ob.hi < b.cl))
            if retest then
              pure (acc ++ [{ type := .BREAKER_BULLISH, original_type := .BEARISH_OB
                              hi := ob.hi, lo := ob.lo, timestamp := ob.timestamp
                              confidence := if 2 < ob.strength then "HIGH" else "MEDIUM" }])
            else pure acc
          else pure acc
        else pure acc)
      []

/-- Result dictionary of `full_ict_analysis`. -/
structure FullIctResult where
  order_blocks : List OrderBlock
  fair_value_gaps : List FairValueGap
  liquidity : LiquidityPools
  market_structure : MarketStructure
  kill_zone : KillZoneInfo
  optimal_trade_entry : Option OptimalTradeEntry
  breaker_blocks : List BreakerBlock
deriving DecidableEq

/-- `ICTAnalysis.full_ict_analysis`: the dictionary entries are computed
in source order; the first exception aborts the whole analysis.  The
wall-clock reading of `analyze_kill_zone` is the explicit `now`
argument. -/
def full_ict_analysis (df : List Bar) (now : ℕ) : Except String FullIctResult :=
  match identify_order_blocks df with
  | .error e => .error e
  | .ok order_blocks =>
    match identify_fair_value_gaps df with
    | .error e => .error e
    | .ok fair_value_gaps =>
      match identify_liquidity_pools df with
      | .error e => .error e
      | .ok liquidity =>
        let market_structure := analyze_market_structure df
        let kill_zone := analyze_kill_zone now
        match find_optimal_trade_entry order_blocks fair_value_gaps df with
        | .error e => .error e
        | .ok optimal_trade_entry =>
          match identify_breaker_blocks order_blocks df with
          | .error e => .error e
          | .ok breaker_blocks =>
            .ok { order_blocks := order_blocks, fair_value_gaps := fair_value_gaps
                  liquidity := liquidity, market_structure := market_structure
                  kill_zone := kill_zone, optimal_trade_entry := optimal_trade_entry
                  breaker_blocks := breaker_blocks }

/-- The time-independent projection of a full ICT analysis: every field
except the kill-zone entry. -/
def dropKillZone (r : FullIctResult) :
    List OrderBlock × List FairValueGap × LiquidityPools × MarketStructure ×
    Option OptimalTradeEntry × List BreakerBlock :=
  (r.order_blocks, r.fair_value_gaps, r.liquidity, r.market_structure,
   r.optimal_trade_entry, r.breaker_blocks)

end ICTAnalysis

/-! ## Signal generator trade construction
(`src/signal/signal_generator.py`) -/

namespace SignalGenerator

open ICTAnalysis

/-- Support/resistance levels as consumed by the trade constructor: the
ranked level prices of `sr_levels['support']` and
`sr_levels['resistance']` (only the `price` key is read there). -/
structure SRLevels where
  support : List ℚ
  resistance : List ℚ
deriving DecidableEq

/-- `SignalGenerator._calculate_stop_loss`.  The order-block loop tests
`'BULLISH' in ob.get('type', '')` where `ob['type']` is an
`OrderBlockType` enum member, so Python raises `TypeError` as soon as at
least one order block is present; with no order blocks only the
support/resistance candidates remain. -/
def _calculate_stop_loss (entry : ℚ) (direction : SignalType)
    (order_blocks : List OrderBlock) (sr_levels : SRLevels) :
    Except String ℚ :=
  if direction = SignalType.BUY then
    match order_blocks with
    | _ :: _ => .error "TypeError: argument of type OrderBlockType is not iterable"
    | [] =>
      let stop_candidates :=
        ((sr_levels.support.take 2).filter fun price => decide (price < entry)).map
          fun price => price - 10 * PIP_VALUE
      let valid_stops := stop_candidates.filter fun s => decide (15 ≤ (entry - s) / PIP_VALUE)
      let stop_loss :=
        match valid_stops with
        | [] => entry - 30 * PIP_VALUE
        | s :: ss => ss.foldl max s
      .ok (pyRoundDec 5 stop_loss)
  else
    match order_blocks with
    | _ :: _ => .error "TypeError: argument of type OrderBlockType is not iterable"
    | [] =>
      let stop_candidates :=
        ((sr_levels.resistance.take 2).filter fun price => decide (entry < price)).map
          fun price => price + 10 * PIP_VALUE
      let valid_stops := stop_candidates.filter fun s => decide (15 ≤ (s - entry) / PIP_VALUE)
      let stop_loss :=
        match valid_stops with
        | [] => entry + 30 * PIP_VALUE
        | s :: ss => ss.foldl min s
      .ok (pyRoundDec 5 stop_loss)

structure TakeProfit where
  price : ℚ
  kind : String
  percentage : ℕ
deriving DecidableEq

/-- The `levels` dictionary of a Fibonacci extension result
(`FibonacciAnalysis.calculate_extension`): ratio key (`"1.272"` etc.)
to level price (the `price` entry). -/
structure FibExtension where
  levels : List (String × ℚ)
deriving DecidableEq

/-- Candidate collection phase of `_calculate_take_profits`: Fibonacci
1.272 and 1.618 extensions on the trade side of the entry, then the
first of the top three opposing structural levels beyond the entry. -/
def takeProfitCandidates (entry : ℚ) (direction : SignalType)
    (fib_extension : FibExtension) (sr_levels : SRLevels) : List TakeProfit :=
  if direction = SignalType.BUY then
    (match fib_extension.levels.lookup "1.272" with
     | some tp1 => if entry < tp1 then
         [{ price := pyRoundDec 5 tp1, kind := "Fib 1.272", percentage := 50 }] else []
     | none => []) ++
    (match fib_extension.levels.lookup "1.618" with
     | some tp2 => if entry < tp2 then
         [{ price := pyRoundDec 5 tp2, kind := "Fib 1.618 (Golden)", percentage := 30 }] else []
     | none => []) ++
    (match (sr_levels.resistance.take 3).find? fun price => decide (entry < price) with
     | some price => [{ price := pyRoundDec 5 price, kind := "Major Resistance", percentage := 20 }]
     | none => [])
  else
    (match fib_extension.levels.lookup "1.272" with
     | some tp1 => if tp1 < entry then
         [{ price := pyRoundDec 5 tp1, kind := "Fib 1.272", percentage := 50 }] else []
     | none => []) ++
    (match fib_extension.levels.lookup "1.618" with
     | some tp2 => if tp2 < entry then
         [{ price := pyRoundDec 5 tp2, kind := "Fib 1.618 (Golden)", percentage := 30 }] else []
     | none => []) ++
    (match (sr_levels.support.take 3).find? fun price => decide (price < entry) with
     | some price => [{ price := pyRoundDec 5 price, kind := "Major Support", percentage := 20 }]
     | none => [])

/-- The `while len(take_profits) < 3` synthesis loop: extend fifty pips
beyond the last target (or the entry when none exists).  The loop body
runs at most three times, hence the fuel argument. -/
def synthesizeTPs (direction : SignalType) (entry : ℚ) :
    ℕ → List TakeProfit → List TakeProfit
  | 0, tps => tps
  | fuel + 1, tps =>
    if 3 ≤ tps.length then tps
    else
      let last_tp := ((tps.getLast?).map (·.price)).getD entry
      let new_tp := if direction = SignalType.BUY then last_tp + 50 * PIP_VALUE
        else last_tp - 50 * PIP_VALUE
      synthesizeTPs direction entry fuel
        (tps ++ [{ price := pyRoundDec 5 new_tp, kind := "Extension", percentage := 10 }])

/-- `SignalGenerator._calculate_take_profits`. -/
def _calculate_take_profits (entry : ℚ) (direction : SignalType)
    (fib_extension : FibExtension) (sr_levels : SRLevels) : List TakeProfit :=
  (synthesizeTPs direction entry 3 (takeProfitCandidates entry direction fib_extension sr_levels)).take 3

end SignalGenerator

/-! ## Multi-timeframe analysis
(`src/analysis/technical/multi_timeframe.py`) -/

namespace MultiTimeframeAnalysis

open ICTAnalysis

structure AlignmentResult where
  status : String
  confidence : ℚ
  bullish_count : ℕ
  bearish_count : ℕ
  ranging_count : ℕ
deriving DecidableEq

/-- `MultiTimeframeAnalysis._check_timeframe_alignment` over the trend
votes of the per-timeframe analyses.  On an empty vote list the first
branch condition `0 >= 0 * 0.7` holds and the confidence division
`bullish_count / total` raises `ZeroDivisionError`. -/
def _check_timeframe_alignment (trends : List TrendDirection) :
    Except String AlignmentResult :=
  let bullish_count := trends.countP (· = TrendDirection.BULLISH)
  let bearish_count := trends.countP (· = TrendDirection.BEARISH)
  let ranging_count := trends.countP (· = TrendDirection.RANGING)
  let total := trends.length
  if (total : ℚ) * (7/10) ≤ (bullish_count : ℚ) then do
    let confidence ← pyDiv bullish_count total
    pure { status := "BULLISH_ALIGNED", confidence := confidence
           bullish_count := bullish_count, bearish_count := bearish_count
           ranging_count := ranging_count }
  else if (total : ℚ) * (7/10) ≤ (bearish_count : ℚ) then do
    let confidence ← pyDiv bearish_count total
    pure { status := "BEARISH_ALIGNED", confidence := confidence
           bullish_count := bullish_count, bearish_count := bearish_count
           ranging_count := ranging_count }
  else
    pure { status := "NOT_ALIGNED", confidence := 1/2
           bullish_count := bullish_count, bearish_count := bearish_count
           ranging_count := ranging_count }

/-- The slice of one per-timeframe analysis bundle that
`analyze_all_timeframes` reads after building the `timeframes`
dictionary: the trend vote with its strength and the ICT order blocks
and fair value gaps used for confluence zones. -/
structure TimeframeData where
  trend : TrendDirection
  strength : ℚ
  order_blocks : List OrderBlock
  fair_value_gaps : List FairValueGap
deriving DecidableEq

structure PrimaryTrend where
  timeframe : String
  trend : TrendDirection
  strength : ℚ
deriving DecidableEq

/-- `MultiTimeframeAnalysis._get_primary_trend`. -/
def _get_primary_trend (timeframes_data : List (String × TimeframeData)) :
    Option PrimaryTrend :=
  let priority_order := ["1d", "4h", "1h", "15m"]
  match priority_order.find? fun tf => (timeframes_data.lookup tf).isSome with
  | some tf =>
    (timeframes_data.lookup tf).map fun data =>
      { timeframe := tf, trend := data.trend, strength := data.strength }
  | none =>
    timeframes_data.head?.map fun fst =>
      { timeframe := fst.1, trend := fst.2.trend, strength := fst.2.strength }

structure ConfluenceZone where
  price : ℚ
  confluence_count : ℕ
  strength : ℚ
deriving DecidableEq

/-- Stable descending insertion by strength, the effect of Python
`list.sort(key=..., reverse=True)`. -/
def insertByStrengthDesc (z : ConfluenceZone) : List ConfluenceZone → List ConfluenceZone
  | [] => [z]
  | y :: ys => if y.strength < z.strength then z :: y :: ys else y :: insertByStrengthDesc z ys

def sortByStrengthDesc (l : List ConfluenceZone) : List ConfluenceZone :=
  l.foldr insertByStrengthDesc []

/-- Python `{z['price']: z for z in zones}.values()`: one zone per
price.  Zones with equal price are computed identically here, so keeping
the first occurrence matches the dictionary semantics. -/
def dedupByPrice (zones : List ConfluenceZone) : List ConfluenceZone :=
  zones.foldl (fun acc z => if acc.any fun y => decide (y.price = z.price) then acc else acc ++ [z]) []

/-- `MultiTimeframeAnalysis._find_confluence_zones`: cluster the order
block and fair value gap midpoints of all timeframes within a
twenty-pip tolerance. -/
def _find_confluence_zones (timeframes_data : List (String × TimeframeData)) :
    List ConfluenceZone :=
  let ob_prices := timeframes_data.flatMap fun tfd =>
    tfd.2.order_blocks.map fun ob => (ob.hi + ob.lo) / 2
  let fvg_prices := timeframes_data.flatMap fun tfd =>
    tfd.2.fair_value_gaps.map fun fvg => (fvg.gap_high + fvg.gap_low) / 2
  let all_prices := ob_prices ++ fvg_prices
  let tolerance := 20 * PIP_VALUE
  let zones := (all_prices.enum.filterMap fun ip =>
    let confluence_count := 1 + ((all_prices.enum.filter fun jp =>
      decide (jp.1 ≠ ip.1) && decide (|ip.2 - jp.2| ≤ tolerance)).length)
    if 2 ≤ confluence_count then
      some { price := ip.2, confluence_count := confluence_count
             strength := (confluence_count : ℚ) / all_prices.length }
    else none)
  (sortByStrengthDesc (dedupByPrice zones)).take 5

/-- `MultiTimeframeAnalysis._get_entry_timeframe`. -/
def _get_entry_timeframe (timeframes_data : List (String × TimeframeData)) :
    Option String :=
  let entry_priority := ["5m", "15m", "1h"]
  match entry_priority.find? fun tf => (timeframes_data.lookup tf).isSome with
  | some tf => some tf
  | none => timeframes_data.head?.map (·.1)

structure MTFResult where
  alignment : AlignmentResult
  primary_trend : Option PrimaryTrend
  entry_timeframe : Option String
  confluence_zones : List ConfluenceZone
deriving DecidableEq

/-- `MultiTimeframeAnalysis.analyze_all_timeframes` on the already-built
per-timeframe map (an empty input models an empty `data_dict`, for
which the per-timeframe loop adds no entries).  The alignment step runs
first and its exception propagates. -/
def analyze_all_timeframes (timeframes_data : List (String × TimeframeData)) :
    Except String MTFResult := do
  let alignment ← _check_timeframe_alignment (timeframes_data.map (·.2.trend))
  pure { alignment := alignment
         primary_trend := _get_primary_trend timeframes_data
         entry_timeframe := _get_entry_timeframe timeframes_data
         confluence_zones := _find_confluence_zones timeframes_data }

end MultiTimeframeAnalysis

/-! ## Helper lemmas -/

theorem rfloor_eq (q : ℚ) : rfloor q = ⌊q⌋ := Rat.floor_def.symm

theorem roundHalfEven_sub_le (q : ℚ) : |((roundHalfEven q : ℤ) : ℚ) - q| ≤ 1/2 := by
  unfold roundHalfEven
  rw [rfloor_eq]
  have hfl : ((⌊q⌋ : ℤ) : ℚ) ≤ q := Int.floor_le q
  have hfu : q < (⌊q⌋ : ℤ) + 1 := Int.lt_floor_add_one q
  split
  · rw [abs_le]; constructor <;> push_cast <;> linarith
  · split
    · rw [abs_le]; constructor <;> push_cast <;> linarith
    · split
      · rw [abs_le]; constructor <;> push_cast <;> linarith
      · rw [abs_le]; constructor <;> push_cast <;> linarith

theorem pyRoundDec_sub_le (d : ℕ) (q : ℚ) :
    |pyRoundDec d q - q| ≤ 1 / (2 * (10 ^ d : ℕ)) := by
  unfold pyRoundDec
  have hpow : (0 : ℚ) < ((10 ^ d : ℕ) : ℚ) := by positivity
  have h := roundHalfEven_sub_le (q * (10 ^ d : ℕ))
  have key : (roundHalfEven (q * (10 ^ d : ℕ)) : ℚ) / ((10 ^ d : ℕ) : ℚ) - q
      = ((roundHalfEven (q * (10 ^ d : ℕ)) : ℚ) - q * (10 ^ d : ℕ)) / ((10 ^ d : ℕ) : ℚ) := by
    field_simp
    ring
  rw [key, abs_div, abs_of_pos hpow, div_le_div_iff hpow (by positivity)]
  nlinarith [abs_nonneg ((roundHalfEven (q * (10 ^ d : ℕ)) : ℚ) - q * (10 ^ d : ℕ))]

/-- If `a` lies on the `10^-d` grid and `a < x` then Python
`round(x, d)` cannot fall below `a`. -/
theorem pyRoundDec_ge_of_grid_lt (d : ℕ) (k : ℤ) (a x : ℚ)
    (ha : a = (k : ℚ) / (10 ^ d : ℕ)) (hx : a < x) :
    a ≤ pyRoundDec d x := by
  unfold pyRoundDec
  have hpow : (0 : ℚ) < ((10 ^ d : ℕ) : ℚ) := by positivity
  have h := roundHalfEven_sub_le (x * (10 ^ d : ℕ))
  rw [abs_le] at h
  obtain ⟨h1, _⟩ := h
  have hgt : (k : ℚ) - 1/2 < (roundHalfEven (x * (10 ^ d : ℕ)) : ℚ) := by
    have hk : (k : ℚ) < x * (10 ^ d : ℕ) := by
      have := (div_lt_iff hpow).mp (ha ▸ hx)
      linarith
    linarith
  have hZ : k ≤ roundHalfEven (x * (10 ^ d : ℕ)) := by
    by_contra hlt
    push_neg at hlt
    have : (roundHalfEven (x * (10 ^ d : ℕ)) : ℚ) ≤ (k : ℚ) - 1 := by
      exact_mod_cast Int.le_sub_one_of_lt hlt
    linarith
  rw [ha, div_le_div_iff hpow hpow]
  have : (k : ℚ) ≤ (roundHalfEven (x * (10 ^ d : ℕ)) : ℚ) := by exact_mod_cast hZ
  nlinarith

/-- Dual bound: if `x < a` and `a` lies on the grid then
`round(x, d) ≤ a`. -/
theorem pyRoundDec_le_of_grid_gt (d : ℕ) (k : ℤ) (a x : ℚ)
    (ha : a = (k : ℚ) / (10 ^ d : ℕ)) (hx : x < a) :
    pyRoundDec d x ≤ a := by
  unfold pyRoundDec
  have hpow : (0 : ℚ) < ((10 ^ d : ℕ) : ℚ) := by positivity
  have h := roundHalfEven_sub_le (x * (10 ^ d : ℕ))
  rw [abs_le] at h
  obtain ⟨_, h2⟩ := h
  have hlt : (roundHalfEven (x * (10 ^ d : ℕ)) : ℚ) < (k : ℚ) + 1/2 := by
    have hk : x * (10 ^ d : ℕ) < (k : ℚ) := by
      have := (lt_div_iff hpow).mp (ha ▸ hx)
      linarith
    linarith
  have hZ : roundHalfEven (x * (10 ^ d : ℕ)) ≤ k := by
    by_contra hgt
    push_neg at hgt
    have : (k : ℚ) + 1 ≤ (roundHalfEven (x * (10 ^ d : ℕ)) : ℚ) := by
      exact_mod_cast hgt
    linarith
  rw [ha, div_le_div_iff hpow hpow]
  have : (roundHalfEven (x * (10 ^ d : ℕ)) : ℚ) ≤ (k : ℚ) := by exact_mod_cast hZ
  nlinarith

/-- Exact value of `roundHalfEven` when the fractional part is below one
half. -/
theorem roundHalfEven_eq_down (n : ℤ) (q : ℚ) (h1 : (n : ℚ) ≤ q)
    (h2 : q - n < 1/2) : roundHalfEven q = n := by
  have hf : ⌊q⌋ = n := by
    rw [Int.floor_eq_iff]
    constructor
    · exact h1
    · push_cast; linarith
  unfold roundHalfEven
  rw [rfloor_eq, hf, if_pos (by push_cast; linarith)]

/-- Exact value of `roundHalfEven` when the fractional part is above one
half. -/
theorem roundHalfEven_eq_up (n : ℤ) (q : ℚ) (h1 : (n : ℚ) ≤ q)
    (h2 : 1/2 < q - n) (h3 : q < (n : ℚ) + 1) : roundHalfEven q = n + 1 := by
  have hf : ⌊q⌋ = n := by
    rw [Int.floor_eq_iff]
    exact ⟨h1, by push_cast; linarith⟩
  unfold roundHalfEven
  rw [rfloor_eq, hf, if_neg (by push_cast; linarith), if_pos (by push_cast; linarith)]

theorem pyRoundDec_eq_down (d : ℕ) (n : ℤ) (q : ℚ)
    (h1 : (n : ℚ) ≤ q * (10 ^ d : ℕ)) (h2 : q * (10 ^ d : ℕ) - n < 1/2) :
    pyRoundDec d q = (n : ℚ) / (10 ^ d : ℕ) := by
  unfold pyRoundDec
  rw [roundHalfEven_eq_down n _ h1 h2]

theorem pyRoundDec_eq_up (d : ℕ) (n : ℤ) (q : ℚ)
    (h1 : (n : ℚ) ≤ q * (10 ^ d : ℕ)) (h2 : 1/2 < q * (10 ^ d : ℕ) - n)
    (h3 : q * (10 ^ d : ℕ) < (n : ℚ) + 1) :
    pyRoundDec d q = ((n : ℚ) + 1) / (10 ^ d : ℕ) := by
  unfold pyRoundDec
  rw [roundHalfEven_eq_up n _ h1 h2 h3]
  push_cast
  ring_nf

/-- The `passed` flag of the quality checks holds exactly when at least
two of the four individual checks hold. -/
theorem quality_passed_iff (confirmations : List String) (direction : SignalType) :
    (ConfirmationSystem._perform_quality_checks confirmations direction).passed = true ↔
      2 ≤ ((if (ConfirmationSystem._perform_quality_checks confirmations direction).has_ict_concept then 1 else 0) +
           (if (ConfirmationSystem._perform_quality_checks confirmations direction).has_trend then 1 else 0) +
           (if (ConfirmationSystem._perform_quality_checks confirmations direction).has_structure then 1 else 0) +
           (if (ConfirmationSystem._perform_quality_checks confirmations direction).directional_alignment then 1 else 0) : ℕ) := by
  simp only [ConfirmationSystem._perform_quality_checks, decide_eq_true_eq]

/-- Claim C1: confirmation validation yields `is_valid = true` exactly
when at least three distinct labels are present, the duplicate-counting
weighted score (unknown labels weigh 0.5) reaches 3.0, and at least two
of the four quality checks pass; and the label set
TREND_ALIGNED, ICT_BULLISH_ORDER_BLOCK, STRONG_SUPPORT_LEVEL with
direction BUY validates with weighted score 3.9 and count 3. -/
theorem claim_C1_confirmation_validation :
    (∀ (confirmations : List String) (direction : SignalType),
      (ConfirmationSystem.validate_confirmations confirmations direction).is_valid = true ↔
        (3 ≤ confirmations.dedup.length ∧
         3 ≤ ConfirmationSystem.weightedScoreOf confirmations ∧
         2 ≤ ((if (ConfirmationSystem._perform_quality_checks confirmations direction).has_ict_concept then 1 else 0) +
              (if (ConfirmationSystem._perform_quality_checks confirmations direction).has_trend then 1 else 0) +
              (if (ConfirmationSystem._perform_quality_checks confirmations direction).has_structure then 1 else 0) +
              (if (ConfirmationSystem._perform_quality_checks confirmations direction).directional_alignment then 1 else 0) : ℕ))) ∧
    (ConfirmationSystem.validate_confirmations
      ["TREND_ALIGNED", "ICT_BULLISH_ORDER_BLOCK", "STRONG_SUPPORT_LEVEL"]
      SignalType.BUY).is_valid = true ∧
    (ConfirmationSystem.validate_confirmations
      ["TREND_ALIGNED", "ICT_BULLISH_ORDER_BLOCK", "STRONG_SUPPORT_LEVEL"]
      SignalType.BUY).weighted_score = some (39/10) ∧
    (ConfirmationSystem.validate_confirmations
      ["TREND_ALIGNED", "ICT_BULLISH_ORDER_BLOCK", "STRONG_SUPPORT_LEVEL"]
      SignalType.BUY).count = 3 := by
  have hiff : ∀ (confirmations : List String) (direction : SignalType),
      (ConfirmationSystem.validate_confirmations confirmations direction).is_valid = true ↔
        (3 ≤ confirmations.dedup.length ∧
         3 ≤ ConfirmationSystem.weightedScoreOf confirmations ∧
         2 ≤ ((if (ConfirmationSystem._perform_quality_checks confirmations direction).has_ict_concept then 1 else 0) +
              (if (ConfirmationSystem._perform_quality_checks confirmations direction).has_trend then 1 else 0) +
              (if (ConfirmationSystem._perform_quality_checks confirmations direction).has_structure then 1 else 0) +
              (if (ConfirmationSystem._perform_quality_checks confirmations direction).directional_alignment then 1 else 0) : ℕ)) := by
    intro confirmations direction
    by_cases h : confirmations.isEmpty
    · have hnil : confirmations = [] := by
        cases confirmations with
        | nil => rfl
        | cons a l => simp [List.isEmpty] at h
      subst hnil
      simp [ConfirmationSystem.validate_confirmations]
    · rw [← quality_passed_iff]
      simp [ConfirmationSystem.validate_confirmations, h,
        ConfirmationSystem.min_confirmations, ConfirmationSystem.min_weighted_score,
        and_assoc]
  refine ⟨hiff, ?_, ?_, ?_⟩
  · rw [hiff]
    refine ⟨?_, ?_, ?_⟩
    · rfl
    · have : ConfirmationSystem.weightedScoreOf
          ["TREND_ALIGNED", "ICT_BULLISH_ORDER_BLOCK", "STRONG_SUPPORT_LEVEL"] = 39/10 := by
        simp only [ConfirmationSystem.weightedScoreOf, ConfirmationSystem.CONFIRMATION_WEIGHTS,
          List.map, List.sum, String.reduceEq, reduceIte]
        norm_num
      rw [this]
      norm_num
    · have : ConfirmationSystem._perform_quality_checks
          ["TREND_ALIGNED", "ICT_BULLISH_ORDER_BLOCK", "STRONG_SUPPORT_LEVEL"]
          SignalType.BUY =
          { has_ict_concept := true, has_trend := true, has_structure := true
            directional_alignment := true, passed := true } := by rfl
      rw [this]
      norm_num
  · have hne : (["TREND_ALIGNED", "ICT_BULLISH_ORDER_BLOCK",
        "STRONG_SUPPORT_LEVEL"] : List String).isEmpty = false := by rfl
    simp only [ConfirmationSystem.validate_confirmations, hne, Bool.false_eq_true, if_false]
    have : ConfirmationSystem.weightedScoreOf
        ["TREND_ALIGNED", "ICT_BULLISH_ORDER_BLOCK", "STRONG_SUPPORT_LEVEL"] = 39/10 := by
      simp only [ConfirmationSystem.weightedScoreOf, ConfirmationSystem.CONFIRMATION_WEIGHTS,
        List.map, List.sum, String.reduceEq, reduceIte]
      norm_num
    rw [this]
  · rfl

/-- Claim C4: with the default 10,000 balance, a 2 percent risk and a
300-pip stop the position size is 0.67 lots, and every returned position
size lies in the clamp range from 0.01 to balance/5000 lots. -/
theorem claim_C4_position_sizing :
    (∃ r, RiskCalculator.calculate_position_size 2000 1997 2 = .ok r ∧
      r.position_size = 67/100) ∧
    (∀ (entry stop_loss risk_percentage : ℚ) (r : RiskCalculator.PositionSizeResult),
      RiskCalculator.calculate_position_size entry stop_loss risk_percentage = .ok r →
      1/100 ≤ r.position_size ∧ r.position_size ≤ ACCOUNT_BALANCE / 5000) := by
  constructor
  · have h1 : pyRoundDec 2 ((2:ℚ)/3) = 67/100 := by
      rw [pyRoundDec_eq_up 2 66 ((2:ℚ)/3) (by norm_num) (by norm_num) (by norm_num)]
      norm_num
    have h2 : pyRoundDec 2 (67:ℚ) = 67 := by
      rw [pyRoundDec_eq_down 2 6700 67 (by norm_num) (by norm_num)]
      norm_num
    have h3 : pyRoundDec 2 ((67:ℚ)/10) = 67/10 := by
      rw [pyRoundDec_eq_down 2 670 ((67:ℚ)/10) (by norm_num) (by norm_num)]
      norm_num
    have h4 : pyRoundDec 2 (201:ℚ) = 201 := by
      rw [pyRoundDec_eq_down 2 20100 201 (by norm_num) (by norm_num)]
      norm_num
    have h5 : pyRoundDec 2 ((201:ℚ)/100) = 201/100 := by
      rw [pyRoundDec_eq_down 2 201 ((201:ℚ)/100) (by norm_num) (by norm_num)]
      norm_num
    have h6 : pyRoundDec 1 (300:ℚ) = 300 := by
      rw [pyRoundDec_eq_down 1 3000 300 (by norm_num) (by norm_num)]
      norm_num
    have h7 : pyRoundDec 2 ((67:ℚ)/100) = 67/100 := by
      rw [pyRoundDec_eq_down 2 67 ((67:ℚ)/100) (by norm_num) (by norm_num)]
      norm_num
    refine ⟨{ position_size := 67/100, position_size_ounces := 67
              position_size_mini := 67/10, position_size_micro := 67
              risk_amount := 201, risk_percentage_actual := 201/100
              stop_distance_pips := 300, stop_distance_dollars := 201
              pip_value := 67/100, pip_value_mini := 67/100
              account_balance := 10000 }, ?_, rfl⟩
    simp only [RiskCalculator.calculate_position_size, pyDiv, ACCOUNT_BALANCE, PIP_VALUE,
      bind, Except.bind, pure, Except.pure]
    norm_num [h1, h2, h3, h4, h5, h6, h7]
  · intro entry stop_loss risk_percentage r h
    simp only [RiskCalculator.calculate_position_size, pyDiv, ACCOUNT_BALANCE, PIP_VALUE,
      bind, Except.bind, pure, Except.pure] at h
    split at h
    · exact absurd h (by simp)
    · rw [Except.ok.injEq] at h
      subst h
      simp only [ACCOUNT_BALANCE]
      constructor <;> (split_ifs <;> try norm_num) <;> linarith

/-- A trend vote is counted as at most one of bullish and bearish. -/
theorem countP_bullish_add_bearish_le (l : List TrendDirection) :
    l.countP (· = TrendDirection.BULLISH) + l.countP (· = TrendDirection.BEARISH) ≤ l.length := by
  induction l with
  | nil => simp
  | cons a l ih => cases a <;> simp [List.countP_cons] <;> omega

/-- Claim C8: on a non-empty vote list the alignment check reports a
direction with confidence equal to that direction's vote share exactly
when that share reaches 0.7, and otherwise reports NOT_ALIGNED with the
fixed confidence 0.5. -/
theorem claim_C8_timeframe_alignment (trends : List TrendDirection)
    (h : trends ≠ []) :
    ∃ r, MultiTimeframeAnalysis._check_timeframe_alignment trends = .ok r ∧
      ((r.status = "BULLISH_ALIGNED" ∧
        r.confidence = (trends.countP (· = TrendDirection.BULLISH) : ℚ) / trends.length) ↔
        7/10 ≤ (trends.countP (· = TrendDirection.BULLISH) : ℚ) / trends.length) ∧
      ((r.status = "BEARISH_ALIGNED" ∧
        r.confidence = (trends.countP (· = TrendDirection.BEARISH) : ℚ) / trends.length) ↔
        7/10 ≤ (trends.countP (· = TrendDirection.BEARISH) : ℚ) / trends.length) ∧
      ((r.status = "NOT_ALIGNED" ∧ r.confidence = 1/2) ↔
        ((trends.countP (· = TrendDirection.BULLISH) : ℚ) / trends.length < 7/10 ∧
         (trends.countP (· = TrendDirection.BEARISH) : ℚ) / trends.length < 7/10)) := by
  have htpos : 0 < trends.length := List.length_pos.mpr h
  have htq : (0:ℚ) < (trends.length : ℚ) := by exact_mod_cast htpos
  have htne : (trends.length : ℚ) ≠ 0 := ne_of_gt htq
  have hdisj := countP_bullish_add_bearish_le trends
  set bc := trends.countP (· = TrendDirection.BULLISH) with hbc
  set ec := trends.countP (· = TrendDirection.BEARISH) with hec
  have hdisjq : (bc : ℚ) + (ec : ℚ) ≤ (trends.length : ℚ) := by exact_mod_cast hdisj
  by_cases hb : (trends.length : ℚ) * (7/10) ≤ (bc : ℚ)
  · have hshare : 7/10 ≤ (bc : ℚ) / trends.length := by
      rw [le_div_iff htq]; linarith
    have heshare : ¬ (7/10 ≤ (ec : ℚ) / trends.length) := by
      rw [le_div_iff htq]; push_neg; linarith
    refine ⟨{ status := "BULLISH_ALIGNED", confidence := (bc : ℚ) / trends.length
              bullish_count := bc, bearish_count := ec
              ranging_count := trends.countP (· = TrendDirection.RANGING) }, ?_, ?_, ?_, ?_⟩
    · simp only [MultiTimeframeAnalysis._check_timeframe_alignment, ← hbc, ← hec,
        if_pos hb, pyDiv, if_neg htne, bind, Except.bind, pure, Except.pure]
    · simpa using hshare
    · simp only [String.reduceEq, false_and, false_iff]
      exact heshare
    · simp only [String.reduceEq, false_and, false_iff]
      push_neg
      intro hlt
      exact absurd hshare (not_le.mpr hlt)
  · by_cases he : (trends.length : ℚ) * (7/10) ≤ (ec : ℚ)
    · have hshare : 7/10 ≤ (ec : ℚ) / trends.length := by
        rw [le_div_iff htq]; linarith
      have hbshare : ¬ (7/10 ≤ (bc : ℚ) / trends.length) := by
        rw [le_div_iff htq]; push_neg; linarith
      refine ⟨{ status := "BEARISH_ALIGNED", confidence := (ec : ℚ) / trends.length
                bullish_count := bc, bearish_count := ec
                ranging_count := trends.countP (· = TrendDirection.RANGING) }, ?_, ?_, ?_, ?_⟩
      · simp only [MultiTimeframeAnalysis._check_timeframe_alignment, ← hbc, ← hec,
          if_neg hb, if_pos he, pyDiv, if_neg htne, bind, Except.bind, pure, Except.pure]
      · simp only [String.reduceEq, false_and, false_iff]
        exact hbshare
      · simpa using hshare
      · simp only [String.reduceEq, false_and, false_iff]
        push_neg
        intro hlt
        exact hshare
    · have hbshare : (bc : ℚ) / trends.length < 7/10 := by
        rw [div_lt_iff htq]; push_neg at hb; linarith
      have heshare : (ec : ℚ) / trends.length < 7/10 := by
        rw [div_lt_iff htq]; push_neg at he; linarith
      refine ⟨{ status := "NOT_ALIGNED", confidence := 1/2
                bullish_count := bc, bearish_count := ec
                ranging_count := trends.countP (· = TrendDirection.RANGING) }, ?_, ?_, ?_, ?_⟩
      · simp only [MultiTimeframeAnalysis._check_timeframe_alignment, ← hbc, ← hec,
          if_neg hb, if_neg he, pure, Except.pure]
      · simp only [String.reduceEq, false_and, false_iff]
        exact not_le.mpr hbshare
      · simp only [String.reduceEq, false_and, false_iff]
        exact not_le.mpr heshare
      · simp only [String.reduceEq, true_and]
        exact ⟨fun _ => ⟨hbshare, heshare⟩, fun _ => trivial⟩

/-- Witness for claim C8 at the single-vote list BULLISH. -/
theorem claim_C8_timeframe_alignment_witness :
    ∃ r, MultiTimeframeAnalysis._check_timeframe_alignment [TrendDirection.BULLISH] = .ok r ∧
      ((r.status = "BULLISH_ALIGNED" ∧
        r.confidence = (([TrendDirection.BULLISH] : List TrendDirection).countP (· = TrendDirection.BULLISH) : ℚ) / ([TrendDirection.BULLISH] : List TrendDirection).length) ↔
        7/10 ≤ (([TrendDirection.BULLISH] : List TrendDirection).countP (· = TrendDirection.BULLISH) : ℚ) / ([TrendDirection.BULLISH] : List TrendDirection).length) ∧
      ((r.status = "BEARISH_ALIGNED" ∧
        r.confidence = (([TrendDirection.BULLISH] : List TrendDirection).countP (· = TrendDirection.BEARISH) : ℚ) / ([TrendDirection.BULLISH] : List TrendDirection).length) ↔
        7/10 ≤ (([TrendDirection.BULLISH] : List TrendDirection).countP (· = TrendDirection.BEARISH) : ℚ) / ([TrendDirection.BULLISH] : List TrendDirection).length) ∧
      ((r.status = "NOT_ALIGNED" ∧ r.confidence = 1/2) ↔
        ((([TrendDirection.BULLISH] : List TrendDirection).countP (· = TrendDirection.BULLISH) : ℚ) / ([TrendDirection.BULLISH] : List TrendDirection).length < 7/10 ∧
         (([TrendDirection.BULLISH] : List TrendDirection).countP (· = TrendDirection.BEARISH) : ℚ) / ([TrendDirection.BULLISH] : List TrendDirection).length < 7/10)) :=
  claim_C8_timeframe_alignment [TrendDirection.BULLISH] (by simp)

/-- Claim C10: on an empty per-timeframe map the alignment check takes
the bullish-aligned branch vacuously and raises ZeroDivisionError, so
the whole multi-timeframe analysis fails rather than degrade. -/
theorem claim_C10_empty_timeframe_map :
    MultiTimeframeAnalysis._check_timeframe_alignment ([] : List TrendDirection)
      = .error "ZeroDivisionError: division by zero" ∧
    MultiTimeframeAnalysis.analyze_all_timeframes ([] : List (String × MultiTimeframeAnalysis.TimeframeData))
      = .error "ZeroDivisionError: division by zero" := by
  have h1 : MultiTimeframeAnalysis._check_timeframe_alignment ([] : List TrendDirection)
      = .error "ZeroDivisionError: division by zero" := by
    simp only [MultiTimeframeAnalysis._check_timeframe_alignment, List.countP_nil,
      List.length_nil, pyDiv, bind, Except.bind]
    norm_num
  refine ⟨h1, ?_⟩
  simp only [MultiTimeframeAnalysis.analyze_all_timeframes, List.map_nil, h1,
    bind, Except.bind]

/-- Folded maximum stays below any common upper bound. -/
theorem foldl_max_le (l : List ℚ) (s c : ℚ) (hs : s ≤ c) (hl : ∀ x ∈ l, x ≤ c) :
    l.foldl max s ≤ c := by
  induction l generalizing s with
  | nil => simpa using hs
  | cons y ys ih =>
    simp only [List.foldl_cons]
    exact ih (max s y) (max_le hs (hl y (by simp))) fun x hx => hl x (by simp [hx])

/-- Folded minimum stays above any common lower bound. -/
theorem le_foldl_min (l : List ℚ) (s c : ℚ) (hs : c ≤ s) (hl : ∀ x ∈ l, c ≤ x) :
    c ≤ l.foldl min s := by
  induction l generalizing s with
  | nil => simpa using hs
  | cons y ys ih =>
    simp only [List.foldl_cons]
    exact ih (min s y) (le_min hs (hl y (by simp))) fun x hx => hl x (by simp [hx])

/-- Claim C9: whenever `_calculate_stop_loss` returns, a BUY stop is
strictly below the entry and a SELL stop strictly above it (structural
candidates are only accepted fifteen pips beyond the entry and the
fallback sits thirty pips away, so the five-decimal rounding cannot
cross the entry). -/
theorem claim_C9_stop_loss_side (entry : ℚ)
    (order_blocks : List ICTAnalysis.OrderBlock)
    (sr_levels : SignalGenerator.SRLevels) :
    (∀ v, SignalGenerator._calculate_stop_loss entry SignalType.BUY order_blocks sr_levels
        = .ok v → v < entry) ∧
    (∀ v, SignalGenerator._calculate_stop_loss entry SignalType.SELL order_blocks sr_levels
        = .ok v → entry < v) := by
  have hround : ∀ q : ℚ, |pyRoundDec 5 q - q| ≤ 1/200000 := by
    intro q
    have := pyRoundDec_sub_le 5 q
    norm_num at this
    exact this
  constructor
  · intro v hv
    cases order_blocks with
    | cons ob obs => simp [SignalGenerator._calculate_stop_loss] at hv
    | nil =>
      simp only [SignalGenerator._calculate_stop_loss, reduceCtorEq, reduceIte] at hv
      rw [Except.ok.injEq] at hv
      subst hv
      set valid_stops := ((sr_levels.support.take 2).filter
          fun price => decide (price < entry)).map (fun price => price - 10 * PIP_VALUE)
            |>.filter (fun s => decide (15 ≤ (entry - s) / PIP_VALUE)) with hvs
      have hmem : ∀ x ∈ valid_stops, x ≤ entry - 3/20 := by
        intro x hx
        rw [hvs, List.mem_filter] at hx
        have h15 := of_decide_eq_true hx.2
        simp only [PIP_VALUE] at h15
        rw [le_div_iff (by norm_num : (0:ℚ) < 1/100)] at h15
        linarith
      clear hvs
      clear_value valid_stops
      cases valid_stops with
      | nil =>
        have hr := hround (entry - 30 * PIP_VALUE)
        rw [abs_le] at hr
        simp only [PIP_VALUE] at hr ⊢
        linarith [hr.2]
      | cons stop0 stops =>
        have hstop : stops.foldl max stop0 ≤ entry - 3/20 :=
          foldl_max_le stops stop0 _ (hmem stop0 (by simp)) fun x hx => hmem x (by simp [hx])
        have hr := hround (stops.foldl max stop0)
        rw [abs_le] at hr
        linarith [hr.2]
  · intro v hv
    cases order_blocks with
    | cons ob obs => simp [SignalGenerator._calculate_stop_loss] at hv
    | nil =>
      simp only [SignalGenerator._calculate_stop_loss, reduceCtorEq, reduceIte] at hv
      rw [Except.ok.injEq] at hv
      subst hv
      set valid_stops := ((sr_levels.resistance.take 2).filter
          fun price => decide (entry < price)).map (fun price => price + 10 * PIP_VALUE)
            |>.filter (fun s => decide (15 ≤ (s - entry) / PIP_VALUE)) with hvs
      have hmem : ∀ x ∈ valid_stops, entry + 3/20 ≤ x := by
        intro x hx
        rw [hvs, List.mem_filter] at hx
        have h15 := of_decide_eq_true hx.2
        simp only [PIP_VALUE] at h15
        rw [le_div_iff (by norm_num : (0:ℚ) < 1/100)] at h15
        linarith
      clear hvs
      clear_value valid_stops
      cases valid_stops with
      | nil =>
        have hr := hround (entry + 30 * PIP_VALUE)
        rw [abs_le] at hr
        simp only [PIP_VALUE] at hr ⊢
        linarith [hr.1]
      | cons stop0 stops =>
        have hstop : entry + 3/20 ≤ stops.foldl min stop0 :=
          le_foldl_min stops stop0 _ (hmem stop0 (by simp)) fun x hx => hmem x (by simp [hx])
        have hr := hround (stops.foldl min stop0)
        rw [abs_le] at hr
        linarith [hr.1]

/-- Witness for claim C9: with no structural candidates the BUY stop is
the thirty-pip fallback 1999.7 below entry 2000, and the SELL stop
2000.3 above it. -/
theorem claim_C9_stop_loss_side_witness :
    ((19997:ℚ)/10 < 2000 ∧ (2000:ℚ) < 20003/10) := by
  have hrB : pyRoundDec 5 ((19997:ℚ)/10) = 19997/10 := by
    rw [pyRoundDec_eq_down 5 199970000 ((19997:ℚ)/10) (by norm_num) (by norm_num)]
    norm_num
  have hrS : pyRoundDec 5 ((20003:ℚ)/10) = 20003/10 := by
    rw [pyRoundDec_eq_down 5 200030000 ((20003:ℚ)/10) (by norm_num) (by norm_num)]
    norm_num
  have hB : SignalGenerator._calculate_stop_loss 2000 SignalType.BUY []
      { support := [], resistance := [] } = .ok (19997/10) := by
    simp only [SignalGenerator._calculate_stop_loss, PIP_VALUE, reduceIte,
      List.take_nil, List.filter_nil, List.map_nil]
    norm_num [hrB]
  have hS : SignalGenerator._calculate_stop_loss 2000 SignalType.SELL []
      { support := [], resistance := [] } = .ok (20003/10) := by
    simp only [SignalGenerator._calculate_stop_loss, PIP_VALUE, reduceCtorEq, reduceIte,
      List.take_nil, List.filter_nil, List.map_nil]
    norm_num [hrS]
  exact ⟨(claim_C9_stop_loss_side 2000 [] { support := [], resistance := [] }).1 _ hB,
         (claim_C9_stop_loss_side 2000 [] { support := [], resistance := [] }).2 _ hS⟩

/-- Witness companion for claim C4, discharging the clamp statement at
the concrete 300-pip example. -/
theorem claim_C4_position_sizing_witness :
    ∃ r, RiskCalculator.calculate_position_size 2000 1997 2 = .ok r ∧
      1/100 ≤ r.position_size ∧ r.position_size ≤ ACCOUNT_BALANCE / 5000 := by
  obtain ⟨r, hr, _⟩ := claim_C4_position_sizing.1
  exact ⟨r, hr, claim_C4_position_sizing.2 2000 1997 2 r hr⟩

theorem mem_of_getLast?_eq {α : Type} (l : List α) (a : α) (h : l.getLast? = some a) :
    a ∈ l := by
  obtain ⟨hne, hx⟩ := List.mem_getLast?_eq_getLast (x := a) (l := l)
    (by simpa [Option.mem_def] using h)
  rw [hx]
  exact List.getLast_mem hne

/-- Every BUY-side take-profit candidate is rounded from a price
strictly above the grid-aligned entry, so it cannot fall below it. -/
theorem takeProfitCandidates_buy_ge (k : ℤ) (entry : ℚ)
    (h : entry = (k : ℚ) / ((10 ^ 5 : ℕ) : ℚ))
    (fib : SignalGenerator.FibExtension) (sr : SignalGenerator.SRLevels) :
    ∀ tp ∈ SignalGenerator.takeProfitCandidates entry SignalType.BUY fib sr,
      entry ≤ tp.price := by
  intro tp htp
  simp only [SignalGenerator.takeProfitCandidates, reduceIte] at htp
  rcases List.mem_append.mp htp with htp' | hC
  · rcases List.mem_append.mp htp' with hA | hB
    · rcases h1 : fib.levels.lookup "1.272" with _ | tp1 <;> simp only [h1] at hA
      · simp at hA
      · split_ifs at hA with hlt
        · rw [List.mem_singleton.mp hA]
          exact pyRoundDec_ge_of_grid_lt 5 k entry tp1 h hlt
        · simp at hA
    · rcases h2 : fib.levels.lookup "1.618" with _ | tp2 <;> simp only [h2] at hB
      · simp at hB
      · split_ifs at hB with hlt
        · rw [List.mem_singleton.mp hB]
          exact pyRoundDec_ge_of_grid_lt 5 k entry tp2 h hlt
        · simp at hB
  · rcases h3 : (sr.resistance.take 3).find? (fun price => decide (entry < price))
        with _ | price <;> simp only [h3] at hC
    · simp at hC
    · rw [List.mem_singleton.mp hC]
      have hfind := List.find?_some h3
      simp only [decide_eq_true_eq] at hfind
      exact pyRoundDec_ge_of_grid_lt 5 k entry price h hfind

/-- Dual of `takeProfitCandidates_buy_ge` for SELL. -/
theorem takeProfitCandidates_sell_le (k : ℤ) (entry : ℚ)
    (h : entry = (k : ℚ) / ((10 ^ 5 : ℕ) : ℚ))
    (fib : SignalGenerator.FibExtension) (sr : SignalGenerator.SRLevels) :
    ∀ tp ∈ SignalGenerator.takeProfitCandidates entry SignalType.SELL fib sr,
      tp.price ≤ entry := by
  intro tp htp
  simp only [SignalGenerator.takeProfitCandidates, reduceCtorEq, reduceIte] at htp
  rcases List.mem_append.mp htp with htp' | hC
  · rcases List.mem_append.mp htp' with hA | hB
    · rcases h1 : fib.levels.lookup "1.272" with _ | tp1 <;> simp only [h1] at hA
      · simp at hA
      · split_ifs at hA with hlt
        · rw [List.mem_singleton.mp hA]
          exact pyRoundDec_le_of_grid_gt 5 k entry tp1 h hlt
        · simp at hA
    · rcases h2 : fib.levels.lookup "1.618" with _ | tp2 <;> simp only [h2] at hB
      · simp at hB
      · split_ifs at hB with hlt
        · rw [List.mem_singleton.mp hB]
          exact pyRoundDec_le_of_grid_gt 5 k entry tp2 h hlt
        · simp at hB
  · rcases h3 : (sr.support.take 3).find? (fun price => decide (price < entry))
        with _ | price <;> simp only [h3] at hC
    · simp at hC
    · rw [List.mem_singleton.mp hC]
      have hfind := List.find?_some h3
      simp only [decide_eq_true_eq] at hfind
      exact pyRoundDec_le_of_grid_gt 5 k entry price h hfind

/-- The synthesis loop preserves the BUY-side lower bound on prices. -/
theorem synthesizeTPs_buy_ge (k : ℤ) (entry : ℚ)
    (h : entry = (k : ℚ) / ((10 ^ 5 : ℕ) : ℚ)) :
    ∀ (fuel : ℕ) (tps : List SignalGenerator.TakeProfit),
      (∀ tp ∈ tps, entry ≤ tp.price) →
      ∀ tp ∈ SignalGenerator.synthesizeTPs SignalType.BUY entry fuel tps,
        entry ≤ tp.price := by
  intro fuel
  induction fuel with
  | zero =>
    intro tps htps tp htp
    simp only [SignalGenerator.synthesizeTPs] at htp
    exact htps tp htp
  | succ n ih =>
    intro tps htps tp htp
    simp only [SignalGenerator.synthesizeTPs, reduceIte] at htp
    by_cases hlen : 3 ≤ tps.length
    · rw [if_pos hlen] at htp
      exact htps tp htp
    · rw [if_neg hlen] at htp
      refine ih _ ?_ tp htp
      intro tp' htp'
      rcases List.mem_append.mp htp' with hmem | hsing
      · exact htps tp' hmem
      · rw [List.mem_singleton.mp hsing]
        refine pyRoundDec_ge_of_grid_lt 5 k entry _ h ?_
        have hlast : entry ≤ ((tps.getLast?).map (·.price)).getD entry := by
          rcases hg : tps.getLast? with _ | last
          · simp
          · simp only [hg, Option.map_some', Option.getD_some]
            exact htps last (mem_of_getLast?_eq _ _ hg)
        simp only [PIP_VALUE]
        linarith

/-- The synthesis loop preserves the SELL-side upper bound on prices. -/
theorem synthesizeTPs_sell_le (k : ℤ) (entry : ℚ)
    (h : entry = (k : ℚ) / ((10 ^ 5 : ℕ) : ℚ)) :
    ∀ (fuel : ℕ) (tps : List SignalGenerator.TakeProfit),
      (∀ tp ∈ tps, tp.price ≤ entry) →
      ∀ tp ∈ SignalGenerator.synthesizeTPs SignalType.SELL entry fuel tps,
        tp.price ≤ entry := by
  intro fuel
  induction fuel with
  | zero =>
    intro tps htps tp htp
    simp only [SignalGenerator.synthesizeTPs] at htp
    exact htps tp htp
  | succ n ih =>
    intro tps htps tp htp
    simp only [SignalGenerator.synthesizeTPs, reduceCtorEq, reduceIte] at htp
    by_cases hlen : 3 ≤ tps.length
    · rw [if_pos hlen] at htp
      exact htps tp htp
    · rw [if_neg hlen] at htp
      refine ih _ ?_ tp htp
      intro tp' htp'
      rcases List.mem_append.mp htp' with hmem | hsing
      · exact htps tp' hmem
      · rw [List.mem_singleton.mp hsing]
        refine pyRoundDec_le_of_grid_gt 5 k entry _ h ?_
        have hlast : ((tps.getLast?).map (·.price)).getD entry ≤ entry := by
          rcases hg : tps.getLast? with _ | last
          · simp
          · simp only [hg, Option.map_some', Option.getD_some]
            exact htps last (mem_of_getLast?_eq _ _ hg)
        simp only [PIP_VALUE]
        linarith

/-- The synthesis loop grows the target list towards three entries. -/
theorem synthesizeTPs_length (direction : SignalType) (entry : ℚ) :
    ∀ (fuel : ℕ) (tps : List SignalGenerator.TakeProfit),
      min 3 (tps.length + fuel) ≤
        (SignalGenerator.synthesizeTPs direction entry fuel tps).length := by
  intro fuel
  induction fuel with
  | zero =>
    intro tps
    simp only [SignalGenerator.synthesizeTPs]
    omega
  | succ n ih =>
    intro tps
    simp only [SignalGenerator.synthesizeTPs]
    by_cases hlen : 3 ≤ tps.length
    · rw [if_pos hlen]
      omega
    · rw [if_neg hlen]
      refine le_trans ?_ (ih _)
      simp only [List.length_append, List.length_cons, List.length_nil]
      omega

/-- Counterexample to claim C2: a BUY call whose three targets are
neither strictly increasing nor all strictly above the entry (the 1.618
extension exceeds the nearest resistance, and rounding lands the 1.272
extension exactly on the entry). -/
theorem claim_C2_counterexample :
    ((SignalGenerator._calculate_take_profits 100 SignalType.BUY
        { levels := [("1.272", 25000001/250000), ("1.618", 110)] }
        { support := [], resistance := [201/2] }).map (·.price) = [100, 110, 201/2]) ∧
    ¬ (List.Chain' (· < ·) ((SignalGenerator._calculate_take_profits 100 SignalType.BUY
        { levels := [("1.272", 25000001/250000), ("1.618", 110)] }
        { support := [], resistance := [201/2] }).map (·.price)) ∧
      (∀ p ∈ (SignalGenerator._calculate_take_profits 100 SignalType.BUY
        { levels := [("1.272", 25000001/250000), ("1.618", 110)] }
        { support := [], resistance := [201/2] }).map (·.price), (100:ℚ) < p)) := by
  have e1 : pyRoundDec 5 ((25000001:ℚ)/250000) = 100 := by
    rw [pyRoundDec_eq_down 5 10000000 ((25000001:ℚ)/250000) (by norm_num) (by norm_num)]
    norm_num
  have e2 : pyRoundDec 5 (110:ℚ) = 110 := by
    rw [pyRoundDec_eq_down 5 11000000 (110:ℚ) (by norm_num) (by norm_num)]
    norm_num
  have e3 : pyRoundDec 5 ((201:ℚ)/2) = 201/2 := by
    rw [pyRoundDec_eq_down 5 10050000 ((201:ℚ)/2) (by norm_num) (by norm_num)]
    norm_num
  have heval : SignalGenerator._calculate_take_profits 100 SignalType.BUY
      { levels := [("1.272", 25000001/250000), ("1.618", 110)] }
      { support := [], resistance := [201/2] } =
      [{ price := 100, kind := "Fib 1.272", percentage := 50 },
       { price := 110, kind := "Fib 1.618 (Golden)", percentage := 30 },
       { price := 201/2, kind := "Major Resistance", percentage := 20 }] := by
    simp only [SignalGenerator._calculate_take_profits, SignalGenerator.takeProfitCandidates,
      SignalGenerator.synthesizeTPs, List.lookup, List.find?, String.reduceBEq, reduceIte,
      e1, e2, e3]
    norm_num [e3]
  rw [heval]
  constructor
  · rfl
  · rintro ⟨hchain, -⟩
    simp only [List.map_cons, List.map_nil, List.chain'_cons] at hchain
    have := hchain.2.1
    norm_num at this

/-- Claim C2 (amended): for an entry on the `round(,5)` grid every
returned BUY target is at least the entry and every SELL target at most
the entry, and exactly three targets are returned; the strict
monotonicity and strict separation of the original claim fail. -/
theorem claim_C2_take_profit_sides (k : ℤ) (entry : ℚ)
    (hk : entry = (k : ℚ) / 100000)
    (fib : SignalGenerator.FibExtension) (sr : SignalGenerator.SRLevels) :
    (∀ p ∈ (SignalGenerator._calculate_take_profits entry SignalType.BUY fib sr).map
        (·.price), entry ≤ p) ∧
    (∀ p ∈ (SignalGenerator._calculate_take_profits entry SignalType.SELL fib sr).map
        (·.price), p ≤ entry) ∧
    (SignalGenerator._calculate_take_profits entry SignalType.BUY fib sr).length = 3 ∧
    (SignalGenerator._calculate_take_profits entry SignalType.SELL fib sr).length = 3 := by
  have h : entry = (k : ℚ) / ((10 ^ 5 : ℕ) : ℚ) := by rw [hk]; norm_num
  have hlenB := synthesizeTPs_length SignalType.BUY entry 3
    (SignalGenerator.takeProfitCandidates entry SignalType.BUY fib sr)
  have hlenS := synthesizeTPs_length SignalType.SELL entry 3
    (SignalGenerator.takeProfitCandidates entry SignalType.SELL fib sr)
  refine ⟨?_, ?_, ?_, ?_⟩
  · intro p hp
    rw [List.mem_map] at hp
    obtain ⟨tp, htp, rfl⟩ := hp
    have htp' := List.take_subset 3 _ (by
      simpa [SignalGenerator._calculate_take_profits] using htp)
    exact synthesizeTPs_buy_ge k entry h 3 _
      (takeProfitCandidates_buy_ge k entry h fib sr) tp htp'
  · intro p hp
    rw [List.mem_map] at hp
    obtain ⟨tp, htp, rfl⟩ := hp
    have htp' := List.take_subset 3 _ (by
      simpa [SignalGenerator._calculate_take_profits] using htp)
    exact synthesizeTPs_sell_le k entry h 3 _
      (takeProfitCandidates_sell_le k entry h fib sr) tp htp'
  · simp only [SignalGenerator._calculate_take_profits, List.length_take]
    omega
  · simp only [SignalGenerator._calculate_take_profits, List.length_take]
    omega

/-- Witness for the amended claim C2 at entry 100 with no Fibonacci
levels and no structural levels. -/
theorem claim_C2_take_profit_sides_witness :
    (∀ p ∈ (SignalGenerator._calculate_take_profits 100 SignalType.BUY
        { levels := [] } { support := [], resistance := [] }).map (·.price), (100:ℚ) ≤ p) ∧
    (∀ p ∈ (SignalGenerator._calculate_take_profits 100 SignalType.SELL
        { levels := [] } { support := [], resistance := [] }).map (·.price), p ≤ (100:ℚ)) ∧
    (SignalGenerator._calculate_take_profits 100 SignalType.BUY
        { levels := [] } { support := [], resistance := [] }).length = 3 ∧
    (SignalGenerator._calculate_take_profits 100 SignalType.SELL
        { levels := [] } { support := [], resistance := [] }).length = 3 :=
  claim_C2_take_profit_sides 10000000 100 (by norm_num)
    { levels := [] } { support := [], resistance := [] }

/-- A greedy pass over a cluster anchored with a positive count reports
a cluster of size at least two exactly when the running count already
reached two or some adjacent pair further on stays within tolerance. -/
theorem clustersAux_any_big (tol : ℚ) :
    ∀ (l : List ℚ) (anchor : ℚ) (cnt : ℕ), 1 ≤ cnt →
      ((ICTAnalysis.clustersAux tol l anchor cnt).any fun pc => decide (2 ≤ pc.2)) =
        (decide (2 ≤ cnt) || ICTAnalysis.adjWithin tol anchor l) := by
  intro l
  induction l with
  | nil =>
    intro anchor cnt _
    simp [ICTAnalysis.clustersAux, ICTAnalysis.adjWithin]
  | cons q rest ih =>
    intro anchor cnt hcnt
    simp only [ICTAnalysis.clustersAux, ICTAnalysis.adjWithin]
    by_cases htol : |q - anchor| ≤ tol
    · rw [if_pos htol, if_pos htol, ih anchor (cnt + 1) (by omega)]
      have h2 : decide (2 ≤ cnt + 1) = true := by simp; omega
      rw [h2]
      simp
    · rw [if_neg htol, if_neg htol]
      simp only [List.any_cons]
      rw [ih q 1 le_rfl]
      have h1 : decide (2 ≤ 1) = false := by simp
      rw [h1]
      simp [Bool.or_assoc]

/-- Adjacency within a tolerance is monotone in the tolerance. -/
theorem adjWithin_mono (t1 t2 : ℚ) (h : t1 ≤ t2) :
    ∀ (l : List ℚ) (anchor : ℚ),
      ICTAnalysis.adjWithin t1 anchor l = true →
      ICTAnalysis.adjWithin t2 anchor l = true := by
  intro l
  induction l with
  | nil => simp [ICTAnalysis.adjWithin]
  | cons q rest ih =>
    intro anchor hadj
    simp only [ICTAnalysis.adjWithin] at hadj ⊢
    by_cases h1 : |q - anchor| ≤ t1
    · rw [if_pos (le_trans h1 h)]
    · rw [if_neg h1] at hadj
      by_cases h2 : |q - anchor| ≤ t2
      · rw [if_pos h2]
      · rw [if_neg h2]
        exact ih q hadj

/-- `_find_equal_levels` reports some cluster exactly when an adjacent
pair of the sorted prices lies within the tolerance. -/
theorem find_equal_levels_ne_nil_iff (prices : List ℚ) (tol : ℚ) :
    ICTAnalysis._find_equal_levels prices tol ≠ [] ↔
      (match sortAsc prices with
       | [] => False
       | p :: rest => ICTAnalysis.adjWithin tol p rest = true) := by
  unfold ICTAnalysis._find_equal_levels
  cases hs : sortAsc prices with
  | nil => simp
  | cons p rest =>
    simp only [Ne, List.filterMap_eq_nil_iff]
    push_neg
    constructor
    · rintro ⟨pc, hmem, hfa⟩
      have hbig : 2 ≤ pc.2 := by
        by_contra hno
        exact hfa (by simp [hno])
      have hany : (ICTAnalysis.clustersAux tol rest p 1).any
          (fun pc => decide (2 ≤ pc.2)) = true :=
        List.any_eq_true.mpr ⟨pc, hmem, by simpa using hbig⟩
      rw [clustersAux_any_big tol rest p 1 le_rfl] at hany
      simpa using hany
    · intro hadj
      have hany : (ICTAnalysis.clustersAux tol rest p 1).any
          (fun pc => decide (2 ≤ pc.2)) = true := by
        rw [clustersAux_any_big tol rest p 1 le_rfl]
        simp [hadj]
      obtain ⟨pc, hmem, hbig⟩ := List.any_eq_true.mp hany
      exact ⟨pc, hmem, by simp [of_decide_eq_true hbig]⟩

/-- Counterexample to claim C6: on prices 0, 0, 2, 3 widening the
tolerance from 1 to 2 merges 2 into the anchor cluster of 0 and strands
3 as a singleton, dropping the assigned-member total from 4 to 3. -/
theorem claim_C6_counterexample :
    (1:ℚ) ≤ 2 ∧
    ICTAnalysis.equalLevelsMemberCount [0, 0, 2, 3] 2 <
      ICTAnalysis.equalLevelsMemberCount [0, 0, 2, 3] 1 := by
  have hsort : sortAsc [0, 0, 2, 3] = ([0, 0, 2, 3] : List ℚ) := by
    norm_num [sortAsc, insertAsc]
  have h1 : ICTAnalysis.equalLevelsMemberCount [0, 0, 2, 3] 1 = 4 := by
    simp only [ICTAnalysis.equalLevelsMemberCount, ICTAnalysis._find_equal_levels, hsort]
    norm_num [ICTAnalysis.clustersAux, List.filterMap_cons]
  have h2 : ICTAnalysis.equalLevelsMemberCount [0, 0, 2, 3] 2 = 3 := by
    simp only [ICTAnalysis.equalLevelsMemberCount, ICTAnalysis._find_equal_levels, hsort]
    norm_num [ICTAnalysis.clustersAux, List.filterMap_cons]
  rw [h1, h2]
  norm_num

/-- Claim C6 (amended): whether `_find_equal_levels` reports any
equal-level cluster at all is monotone in the tolerance; the total
membership count itself is not monotone. -/
theorem claim_C6_cluster_reporting_monotone (prices : List ℚ) (t1 t2 : ℚ)
    (h12 : t1 ≤ t2) (h1 : ICTAnalysis._find_equal_levels prices t1 ≠ []) :
    ICTAnalysis._find_equal_levels prices t2 ≠ [] := by
  rw [find_equal_levels_ne_nil_iff] at h1 ⊢
  cases hs : sortAsc prices with
  | nil =>
    rw [hs] at h1
    exact h1.elim
  | cons p rest =>
    rw [hs] at h1
    exact adjWithin_mono t1 t2 h12 rest p h1

/-- Witness for the amended claim C6 on the price pair 0, 0 with
tolerances 0 and 1. -/
theorem claim_C6_cluster_reporting_monotone_witness :
    ICTAnalysis._find_equal_levels [0, 0] 1 ≠ [] := by
  refine claim_C6_cluster_reporting_monotone [0, 0] 0 1 (by norm_num) ?_
  have hsort : sortAsc [0, 0] = ([0, 0] : List ℚ) := by
    norm_num [sortAsc, insertAsc]
  simp only [ICTAnalysis._find_equal_levels, hsort]
  norm_num [ICTAnalysis.clustersAux, List.filterMap_cons]

/-- Counterexample to claim C3: on the empty bar series the fair value
gap and liquidity detectors reach `iloc[-1]` and raise `IndexError`
rather than return an empty result. -/
theorem claim_C3_counterexample :
    ICTAnalysis.identify_fair_value_gaps ([] : List Bar) =
      .error "IndexError: single positional indexer is out-of-bounds" ∧
    ICTAnalysis.identify_liquidity_pools ([] : List Bar) =
      .error "IndexError: single positional indexer is out-of-bounds" := by
  constructor <;> rfl

/-- Claim C3 (amended): on a non-empty series shorter than each
detector's minimum window every structure detector returns its empty
result without raising; the order-block, market-structure and breaker
detectors do so on the empty series as well, but the fair-value-gap and
liquidity detectors raise `IndexError` there. -/
theorem claim_C3_insufficient_data (df : List Bar) :
    (df.length < ORDER_BLOCK_LOOKBACK → ICTAnalysis.identify_order_blocks df = .ok []) ∧
    (df ≠ [] → df.length < 3 → ICTAnalysis.identify_fair_value_gaps df = .ok []) ∧
    (df ≠ [] → df.length < 11 →
      ICTAnalysis.identify_liquidity_pools df =
        .ok { buy_side := [], sell_side := [], equal_highs := [], equal_lows := [] }) ∧
    (df.length < 11 → ICTAnalysis.analyze_market_structure df =
      { current_structure := none, bos_levels := [], choch_levels := []
        inducement_detected := false }) ∧
    (ICTAnalysis.identify_breaker_blocks [] df = .ok []) := by
  refine ⟨?_, ?_, ?_, ?_, ?_⟩
  · intro h
    simp only [ICTAnalysis.identify_order_blocks, if_pos h]
  · intro hne hlen
    have h2 : df.length - 2 = 0 := by omega
    cases hg : df.getLast? with
    | none => exact absurd (List.getLast?_eq_none_iff.mp hg) hne
    | some b =>
      simp [ICTAnalysis.identify_fair_value_gaps, h2, hg, takeLast]
  · intro hne hlen
    have h10 : df.length - 2 * 5 = 0 := by omega
    cases hg : df.getLast? with
    | none => exact absurd (List.getLast?_eq_none_iff.mp hg) hne
    | some b =>
      simp [ICTAnalysis.identify_liquidity_pools, h10, hg,
        ICTAnalysis._find_equal_levels, sortAsc]
  · intro hlen
    have h10 : df.length - 10 = 0 := by omega
    have h20 : ¬ (20 ≤ df.length) := by omega
    simp [ICTAnalysis.analyze_market_structure, h10, h20]
  · simp [ICTAnalysis.identify_breaker_blocks]

/-- Witness for the amended claim C3 on a single-bar series. -/
theorem claim_C3_insufficient_data_witness :
    ICTAnalysis.identify_order_blocks [{ op := 1, hi := 1, lo := 1, cl := 1 }] = .ok [] ∧
    ICTAnalysis.identify_fair_value_gaps [{ op := 1, hi := 1, lo := 1, cl := 1 }] = .ok [] ∧
    ICTAnalysis.identify_liquidity_pools [{ op := 1, hi := 1, lo := 1, cl := 1 }] =
      .ok { buy_side := [], sell_side := [], equal_highs := [], equal_lows := [] } ∧
    ICTAnalysis.analyze_market_structure [{ op := 1, hi := 1, lo := 1, cl := 1 }] =
      { current_structure := none, bos_levels := [], choch_levels := []
        inducement_detected := false } ∧
    ICTAnalysis.identify_breaker_blocks [] [{ op := 1, hi := 1, lo := 1, cl := 1 }] = .ok [] := by
  have h := claim_C3_insufficient_data [{ op := 1, hi := 1, lo := 1, cl := 1 }]
  exact ⟨h.1 (by simp [ORDER_BLOCK_LOOKBACK]), h.2.1 (by simp) (by simp),
    h.2.2.1 (by simp) (by simp), h.2.2.2.1 (by simp), h.2.2.2.2⟩

/-- Claim C5: the breaker-block retest check truth-tests a multi-bar
boolean Series with Python `and`, so with one broken bullish order block
over a two-bar frame the detector raises `ValueError` instead of
reclassifying. -/
theorem claim_C5_breaker_block_value_error :
    ICTAnalysis.identify_breaker_blocks
      [{ type := .BULLISH_OB, timestamp := 0, hi := 105, lo := 100, op := 105
         cl := 100, strength := 3, tested := false }]
      [{ op := 96, hi := 97, lo := 95, cl := 96 },
       { op := 95, hi := 96, lo := 94, cl := 95 }] =
      .error "ValueError: The truth value of a Series is ambiguous. Use a.empty, a.bool(), a.item(), a.any() or a.all()." := by
  norm_num [ICTAnalysis.identify_breaker_blocks, takeLast, pySeriesAndAny, pyBoolSeries,
    List.foldlM, bind, Except.bind]

/-- Counterexample to claim C7: the same one-bar snapshot analysed at
two different wall-clock minutes yields different full ICT bundles (the
kill-zone entry embeds the clock). -/
theorem claim_C7_counterexample :
    ICTAnalysis.full_ict_analysis [{ op := 1, hi := 1, lo := 1, cl := 1 }] 60 ≠
    ICTAnalysis.full_ict_analysis [{ op := 1, hi := 1, lo := 1, cl := 1 }] 300 := by
  intro h
  have h2 := congrArg (Except.map fun r : ICTAnalysis.FullIctResult =>
    r.kill_zone.current_time) h
  have h60 : Except.map (fun r : ICTAnalysis.FullIctResult => r.kill_zone.current_time)
      (ICTAnalysis.full_ict_analysis [{ op := 1, hi := 1, lo := 1, cl := 1 }] 60)
      = .ok 60 := rfl
  have h300 : Except.map (fun r : ICTAnalysis.FullIctResult => r.kill_zone.current_time)
      (ICTAnalysis.full_ict_analysis [{ op := 1, hi := 1, lo := 1, cl := 1 }] 300)
      = .ok 300 := rfl
  rw [h60, h300] at h2
  exact absurd h2 (by simp)

/-- Claim C7 (amended): every detector of the full ICT analysis except
the kill-zone entry is a deterministic function of the bar series
alone — stripping the kill zone, two runs at different wall-clock times
agree identically (including which error aborts them). -/
theorem claim_C7_time_invariant_core (df : List Bar) (t1 t2 : ℕ) :
    (ICTAnalysis.full_ict_analysis df t1).map ICTAnalysis.dropKillZone =
    (ICTAnalysis.full_ict_analysis df t2).map ICTAnalysis.dropKillZone := by
  unfold ICTAnalysis.full_ict_analysis
  cases ICTAnalysis.identify_order_blocks df with
  | error e => rfl
  | ok obs =>
    dsimp only
    cases ICTAnalysis.identify_fair_value_gaps df with
    | error e => rfl
    | ok fvgs =>
      dsimp only
      cases ICTAnalysis.identify_liquidity_pools df with
      | error e => rfl
      | ok liq =>
        dsimp only
        cases ICTAnalysis.find_optimal_trade_entry obs fvgs df with
        | error e => rfl
        | ok ote =>
          dsimp only
          cases ICTAnalysis.identify_breaker_blocks obs df with
          | error e => rfl
          | ok bbs => rfl

end XAUUSD
